import Mathlib

/-!
Verification of the Bangladesh public-finance simulation engine
(`src/simulation.py` and `src/models/*.py`).

The shared simulation state is a Python dict with string keys whose values
are numbers, booleans or nested dicts; we embed it as an association list
`List (String × Val)`.  Floating-point numbers are embedded as exact
rationals (`ℚ`); the numpy `nan` "missing" marker becomes `Option.none`.
Each sector model's private attributes become a Lean structure, and its
`simulate_*` method a pure function returning the outputs together with
the updated model.  The orchestrator (`run_single_year`, `run_simulation`,
`_store_results`) is embedded as `runYear` / `runYears` / `storeResults`
below, replaying the source's writes into the shared state in order.
Randomness (`np.random.normal`, `random.uniform`) is made an explicit
input: one `Draws` record per simulated year.
-/

namespace BDPF

/-- Values stored in the shared simulation state dict: numbers (floats,
embedded as exact rationals), booleans, and nested dicts. -/
inductive Val where
  | num  (q : ℚ)
  | bool (b : Bool)
  | dict (d : List (String × Val))

/-- A Python dict with string keys, as an insertion-ordered association list. -/
abbrev StateD := List (String × Val)

/-- Dict lookup: `d.get(k)` / `k in d`. First (unique) matching key. -/
def lookupD : StateD → String → Option Val
  | [], _ => none
  | (k, v) :: r, q => if q = k then some v else lookupD r q

/-- Dict assignment `d[k] = v`: replace in place if the key exists,
otherwise append (Python dicts preserve insertion order). -/
def setD : StateD → String → Val → StateD
  | [], q, v => [(q, v)]
  | (k, w) :: r, q, v => if q = k then (k, v) :: r else (k, w) :: setD r q v

/-- Dict update `d.update(kvs)`: assign every pair of `kvs` in order. -/
def supdate (s : StateD) (kvs : StateD) : StateD :=
  kvs.foldl (fun t p => setD t p.1 p.2) s

@[simp] theorem supdate_nil (s : StateD) : supdate s [] = s := rfl

@[simp] theorem supdate_cons (s : StateD) (k : String) (v : Val) (r : StateD) :
    supdate s ((k, v) :: r) = supdate (setD s k v) r := rfl

@[simp] theorem lookupD_setD_self (s : StateD) (k : String) (v : Val) :
    lookupD (setD s k v) k = some v := by
  induction s with
  | nil => simp [setD, lookupD]
  | cons p r ih =>
      obtain ⟨k', w⟩ := p
      by_cases h : k = k'
      · simp [setD, lookupD, h]
      · simp [setD, lookupD, h, ih]

theorem lookupD_setD_ne (s : StateD) {q k : String} (h : q ≠ k) (v : Val) :
    lookupD (setD s k v) q = lookupD s q := by
  induction s with
  | nil => simp [setD, lookupD, h]
  | cons p r ih =>
      obtain ⟨k', w⟩ := p
      by_cases h' : k = k'
      · subst h'
        simp [setD, lookupD, h]
      · by_cases h'' : q = k'
        · simp [setD, lookupD, h', h'']
        · simp [setD, lookupD, h', h'', ih]

/-- `d.get(k, default)` for an expected numeric value. -/
def getNumD (s : StateD) (k : String) (d : ℚ) : ℚ :=
  match lookupD s k with
  | some (.num q) => q
  | _ => d

/-- `d.get(k, np.nan)` for a numeric value: `none` is the missing marker. -/
def getNumOpt (s : StateD) (k : String) : Option ℚ :=
  match lookupD s k with
  | some (.num q) => some q
  | _ => none

/-- `d.get(k, {})` for an expected dict value. -/
def getDictD (s : StateD) (k : String) : StateD :=
  match lookupD s k with
  | some (.dict l) => l
  | _ => []

/-- `k in d`. -/
def hasKey (s : StateD) (k : String) : Bool :=
  (lookupD s k).isSome

/-- `sum(d.values())` over a dict of numbers. -/
def sumNums (s : StateD) : ℚ :=
  s.foldr (fun p acc => (match p.2 with | .num q => q | _ => 0) + acc) 0

/-- `max(lo, min(hi, x))`, the clamping idiom used throughout the source. -/
def clamp (lo hi x : ℚ) : ℚ := max lo (min hi x)

theorem clamp_le_hi {lo hi : ℚ} (h : lo ≤ hi) (x : ℚ) : clamp lo hi x ≤ hi := by
  unfold clamp
  exact max_le h (min_le_left _ _)

theorem lo_le_clamp (lo hi x : ℚ) : lo ≤ clamp lo hi x := le_max_left _ _

/-! ## Sector models (`src/models/*.py`)

Each model structure holds the Python object's mutable attributes; the
configuration parameters read in `__init__` are further (immutable) fields.
-/

/-- `GovernanceModel` (`governance.py`): governance levels, improvement
rates and index weights. -/
structure GovernanceModel where
  (pfmReformLevel nbrCapacityLevel centralBankCapacity : ℚ)
  (antiCorruptionEffectiveness accountabilityScore : ℚ)
  (pfmImprovementRate nbrImprovementRate cbImprovementRate : ℚ)
  (acImprovementRate accountabilityImprovementRate : ℚ)
  (wPfm wNbr wCb wAc wAccountability : ℚ)

/-- `simulate_governance_evolution`: raise each level by its rate (capped
at 0.95), compute the weighted index scaled to 0-100, return the outputs
dict and the updated model. -/
def simulateGovernanceEvolution (m : GovernanceModel) : StateD × GovernanceModel :=
  let pfm := min 0.95 (m.pfmReformLevel + m.pfmImprovementRate)
  let nbr := min 0.95 (m.nbrCapacityLevel + m.nbrImprovementRate)
  let cb := min 0.95 (m.centralBankCapacity + m.cbImprovementRate)
  let ac := min 0.95 (m.antiCorruptionEffectiveness + m.acImprovementRate)
  let acc := min 0.95 (m.accountabilityScore + m.accountabilityImprovementRate)
  let index := (pfm * m.wPfm + nbr * m.wNbr + cb * m.wCb + ac * m.wAc + acc * m.wAccountability) * 100
  ([("governance_index", .num index),
    ("pfm_reform_level", .num pfm),
    ("nbr_modernization_level", .num nbr),
    ("central_bank_capacity", .num cb),
    ("anti_corruption_effectiveness", .num ac),
    ("accountability_score", .num acc)],
   { m with pfmReformLevel := pfm, nbrCapacityLevel := nbr, centralBankCapacity := cb,
            antiCorruptionEffectiveness := ac, accountabilityScore := acc })

/-- `SupervisionModel` (`supervision.py`). -/
structure SupervisionModel where
  (currentEffectiveness cbCapacityWeight financialStabilityWeight regulatoryReformImpact : ℚ)

/-- `simulate_supervision_effectiveness` / `_update_effectiveness`. -/
def simulateSupervisionEffectiveness (m : SupervisionModel) (state : StateD) :
    ℚ × SupervisionModel :=
  let cbCapacity := getNumD (getDictD state "governance_state") "central_bank_capacity" 0.6
  let nplRatio := getNumD state "npl_ratio" 0.11
  let stabilityProxy := max 0 (1 - nplRatio / 0.25)
  let target := m.cbCapacityWeight * cbCapacity + m.financialStabilityWeight * stabilityProxy
      + m.regulatoryReformImpact
  let eff := clamp 0.2 0.95 (m.currentEffectiveness * 0.9 + target * 0.1)
  (eff, { m with currentEffectiveness := eff })

/-- `FinancialSectorModel` (`financial_sector.py`). -/
structure FinancialSectorModel where
  (nplRatio capitalAdequacyRatio requiredCar : ℚ)
  (nplGdpSensitivity nplSupervisionSensitivity : ℚ)

/-- `simulate_financial_system`: `_update_npls` (floored at 1%),
`_update_capital_adequacy` (clamped to [5%, 25%]),
`_calculate_stability_index`. -/
def simulateFinancialSystem (m : FinancialSectorModel) (state : StateD) :
    StateD × FinancialSectorModel :=
  let gdpGrowth := getNumD (getDictD state "economic_state") "gdp_growth" 0.06
  let supervisionEffectiveness := getNumD state "supervision_effectiveness" 0.7
  let npl := max 0.01 (m.nplRatio + m.nplGdpSensitivity * (gdpGrowth - 0.04)
      + m.nplSupervisionSensitivity * (supervisionEffectiveness - 0.6))
  let car := clamp 0.05 0.25
      (if 0.15 < npl then m.capitalAdequacyRatio * 0.98 else m.capitalAdequacyRatio * 1.01)
  let nplScore := max 0 (1 - npl / 0.20)
  let carBuffer := car - m.requiredCar
  let carScore := max 0 (min 1 (carBuffer / 0.05))
  let stabilityIndex := 0.6 * nplScore + 0.4 * carScore
  ([("npl_ratio", .num npl),
    ("capital_adequacy_ratio", .num car),
    ("stability_index", .num stabilityIndex)],
   { m with nplRatio := npl, capitalAdequacyRatio := car })

/-- `MonetaryPolicyModel` (`monetary_policy.py`). -/
structure MonetaryPolicyModel where
  (targetInflationLo targetInflationHi policyRate : ℚ)
  (inflationGapWeight policyTransmissionLag : ℚ)

/-- `simulate_monetary_conditions`: Taylor-like rate adjustment (bounded
to [1%, 15%]) and the projected inflation for the next period (bounded to
[0%, 20%]). -/
def simulateMonetaryConditions (m : MonetaryPolicyModel) (state : StateD) :
    (ℚ × ℚ) × MonetaryPolicyModel :=
  let currentInflation := getNumD state "inflation" 0.07
  let inflationTargetMidpoint := (m.targetInflationLo + m.targetInflationHi) / 2
  let rate := clamp 0.01 0.15
      (m.policyRate + m.inflationGapWeight * (currentInflation - inflationTargetMidpoint))
  let projected0 := currentInflation - m.policyTransmissionLag * (rate - 0.06)
  let projectedInflation := clamp 0 0.20 (0.8 * projected0 + 0.2 * currentInflation)
  ((rate, projectedInflation), { m with policyRate := rate })

/-- `ExternalSectorModel` (`external_sector.py`): parameters plus the
lazily initialized internal flow/reserve stocks. -/
structure ExternalSectorModel where
  (initialExportGdp initialImportGdp initialRemittanceGdp initialFdiGdp : ℚ)
  initialReservesMonthsImport : ℚ
  (exportGlobalGrowthSensitivity importDomesticGrowthSensitivity : ℚ)
  (remittanceGlobalGrowthSensitivity fdiGovernanceSensitivity : ℚ)
  (exports imports remittances fdi : ℚ)
  (currentAccountBalance financialAccountBalance overallBop fxReserves : ℚ)
  initialized : Bool

/-- `_initialize_state`: set initial flows and reserves from first-known GDP. -/
def externalInitializeState (m : ExternalSectorModel) (initialGdp : ℚ) : ExternalSectorModel :=
  let exports := m.initialExportGdp * initialGdp
  let imports := m.initialImportGdp * initialGdp
  let remittances := m.initialRemittanceGdp * initialGdp
  let fdi := m.initialFdiGdp * initialGdp
  { m with exports := exports, imports := imports, remittances := remittances, fdi := fdi,
           fxReserves := imports * (m.initialReservesMonthsImport / 12), initialized := true }

/-- `_project_flows` (the `global_factor = random.uniform(0.98, 1.05)` draw
is the explicit `globalFactor` argument); flows floored at zero. -/
def externalProjectFlows (m : ExternalSectorModel) (state : StateD) (globalFactor : ℚ) :
    ExternalSectorModel :=
  let gdpGrowth := getNumD (getDictD state "economic_state") "gdp_growth" 0.05
  let governanceScore := getNumD (getDictD state "governance_state") "governance_index" 50 / 100
  { m with
    exports := max 0 (m.exports * (1 + gdpGrowth * 0.5
        + (globalFactor - 1) * m.exportGlobalGrowthSensitivity)),
    imports := max 0 (m.imports * (1 + gdpGrowth * m.importDomesticGrowthSensitivity)),
    remittances := max 0 (m.remittances * (1 + (globalFactor - 1) * m.remittanceGlobalGrowthSensitivity)),
    fdi := max 0 (m.fdi * (1 + gdpGrowth + m.fdiGovernanceSensitivity * (governanceScore - 0.5))) }

/-- `_calculate_bop`. -/
def externalCalculateBop (m : ExternalSectorModel) : ExternalSectorModel :=
  let tradeBalance := m.exports - m.imports
  let cab := tradeBalance + m.remittances
  let fab := m.fdi
  { m with currentAccountBalance := cab, financialAccountBalance := fab, overallBop := cab + fab }

/-- `_update_reserves`: reserves floored at zero; returns months of imports. -/
def externalUpdateReserves (m : ExternalSectorModel) : ℚ × ExternalSectorModel :=
  let fxReserves := max 0 (m.fxReserves + m.overallBop)
  let monthsOfImports := if 0 < m.imports then fxReserves / (m.imports / 12) else 0
  (monthsOfImports, { m with fxReserves := fxReserves })

/-- The initialized body of `simulate_external_sector`: project flows,
compute the BoP, update reserves, build the outputs dict. -/
def externalBody (m : ExternalSectorModel) (state : StateD) (globalFactor : ℚ) :
    Option StateD × ExternalSectorModel :=
  let m1 := externalProjectFlows m state globalFactor
  let m2 := externalCalculateBop m1
  let (monthsOfImports, m3) := externalUpdateReserves m2
  (some [("exports", .num m3.exports),
         ("imports", .num m3.imports),
         ("remittances", .num m3.remittances),
         ("fdi", .num m3.fdi),
         ("current_account_balance", .num m3.currentAccountBalance),
         ("overall_bop", .num m3.overallBop),
         ("fx_reserves", .num m3.fxReserves),
         ("reserves_months_imports", .num monthsOfImports)], m3)

/-- `simulate_external_sector`: if not yet initialized and GDP is absent
or non-positive, return the degenerate result (`({}, 0)` in the source,
modelled as `none`) without touching the model; otherwise initialize on
first use and run the body. -/
def simulateExternalSector (m : ExternalSectorModel) (state : StateD) (globalFactor : ℚ) :
    Option StateD × ExternalSectorModel :=
  if m.initialized then externalBody m state globalFactor
  else
    let initialGdp := getNumD (getDictD state "economic_state") "gdp" 0
    if 0 < initialGdp then externalBody (externalInitializeState m initialGdp) state globalFactor
    else (none, m)

/-- `DevelopmentFinanceModel` (`development_finance.py`). -/
structure DevelopmentFinanceModel where
  (initialGrantAidGdp initialDfiNetLendingGdp : ℚ)
  (grantGlobalFactorSensitivity dfiLendingGovernanceSensitivity absorptionCapacitySensitivity : ℚ)
  (grantAid dfiNetLending : ℚ)
  initialized : Bool

/-- `_initialize_state` of the development-finance model. -/
def devFinanceInitializeState (m : DevelopmentFinanceModel) (initialGdp : ℚ) :
    DevelopmentFinanceModel :=
  { m with grantAid := m.initialGrantAidGdp * initialGdp,
           dfiNetLending := m.initialDfiNetLendingGdp * initialGdp, initialized := true }

/-- `_simulate_flows` (the `global_aid_factor = random.uniform(0.90, 1.10)`
draw is the explicit argument); flows floored at zero. -/
def devFinanceSimulateFlows (m : DevelopmentFinanceModel) (state : StateD)
    (globalAidFactor : ℚ) : DevelopmentFinanceModel :=
  let gdpGrowth := getNumD (getDictD state "economic_state") "gdp_growth" 0.05
  let governanceScore := getNumD (getDictD state "governance_state") "governance_index" 50 / 100
  let pfmLevel := getNumD (getDictD state "governance_state") "pfm_reform_level" 0.4
  let grantGrowthFactor := (1 + gdpGrowth * 0.2)
      * (1 + (globalAidFactor - 1) * m.grantGlobalFactorSensitivity)
      * (1 + (pfmLevel - 0.5) * m.absorptionCapacitySensitivity)
  let dfiGrowthFactor := (1 + gdpGrowth * 0.5)
      * (1 + (governanceScore - 0.5) * m.dfiLendingGovernanceSensitivity)
  { m with grantAid := max 0 (m.grantAid * grantGrowthFactor),
           dfiNetLending := max 0 (m.dfiNetLending * dfiGrowthFactor) }

/-- Initialized body of `simulate_development_finance`. -/
def devFinanceBody (m : DevelopmentFinanceModel) (state : StateD) (globalAidFactor : ℚ) :
    Option StateD × DevelopmentFinanceModel :=
  let m1 := devFinanceSimulateFlows m state globalAidFactor
  (some [("grant_aid", .num m1.grantAid), ("dfi_net_lending", .num m1.dfiNetLending)], m1)

/-- `simulate_development_finance`: degenerate `({}, 0, 0)` return
(modelled as `none`) while GDP is unknown, lazy initialization otherwise. -/
def simulateDevelopmentFinance (m : DevelopmentFinanceModel) (state : StateD)
    (globalAidFactor : ℚ) : Option StateD × DevelopmentFinanceModel :=
  if m.initialized then devFinanceBody m state globalAidFactor
  else
    let initialGdp := getNumD (getDictD state "economic_state") "gdp" 0
    if 0 < initialGdp then
      devFinanceBody (devFinanceInitializeState m initialGdp) state globalAidFactor
    else (none, m)

/-- `RevenueModel` (`revenue.py`). -/
structure RevenueModel where
  (vatRate avgIncomeTaxRate avgCorpTaxRate avgTradeTax : ℚ)
  (currentComplianceRate currentAdminEfficiency formalSectorShare : ℚ)

/-- `project_revenue`: tax potential, structural, administrative and
compliance adjustments, then `_update_internal_state`. -/
def projectRevenue (m : RevenueModel) (economicState governanceState : StateD) :
    StateD × RevenueModel :=
  let gdp := getNumD economicState "gdp" 0
  let potentialRevenue := gdp * 0.4 * m.vatRate + gdp * 0.3 * m.avgIncomeTaxRate
      + gdp * 0.2 * m.avgCorpTaxRate
      + getNumD economicState "imports" (gdp * 0.2) * m.avgTradeTax
  let constrainedRevenue := potentialRevenue * m.formalSectorShare
  let collectedRevenue := constrainedRevenue * m.currentAdminEfficiency
  let finalRevenue := collectedRevenue * m.currentComplianceRate
  let adminEfficiency :=
    if m.currentAdminEfficiency < getNumD governanceState "nbr_modernization_level" 0
    then min 1 (m.currentAdminEfficiency * 1.01) else m.currentAdminEfficiency
  let complianceRate :=
    if 0.05 < getNumD economicState "gdp_growth" 0
    then min 0.95 (m.currentComplianceRate * 1.005) else m.currentComplianceRate
  ([("final_revenue", .num finalRevenue)],
   { m with currentAdminEfficiency := adminEfficiency, currentComplianceRate := complianceRate })

/-- `FiscalFederalismModel` (`fiscal_federalism.py`). -/
structure FiscalFederalismModel where
  (transferRatioCentralRevenue initialSubnationalRevenueGdp : ℚ)
  (subnationalRevenueCapacityGrowth subnationalSpendingEfficiency subnationalDebtLimitGdp : ℚ)
  (subnationalRevenueCapacityIndex totalTransfers totalSubnationalOwnRevenue : ℚ)
  (totalSubnationalSpending aggregateSubnationalDebt : ℚ)
  initialized : Bool

/-- `_initialize_state` of the fiscal-federalism model. -/
def ffInitializeState (m : FiscalFederalismModel) (initialGdp : ℚ) : FiscalFederalismModel :=
  { m with totalSubnationalOwnRevenue := m.initialSubnationalRevenueGdp * initialGdp,
           aggregateSubnationalDebt := m.subnationalDebtLimitGdp * initialGdp * 0.5,
           initialized := true }

/-- Initialized body of `simulate_fiscal_federalism`: central transfers,
subnational own revenue, spending, and debt (with the debt-limit check). -/
def ffBody (m : FiscalFederalismModel) (state : StateD) : StateD × FiscalFederalismModel :=
  let centralRevenue := getNumD (getDictD state "revenue_state") "final_revenue" 0
  let totalTransfers := centralRevenue * m.transferRatioCentralRevenue
  let capacityIndex := m.subnationalRevenueCapacityIndex * (1 + m.subnationalRevenueCapacityGrowth)
  let gdp := getNumD (getDictD state "economic_state") "gdp" 1
  let baseRev :=
    if m.initialized = false then gdp * m.initialSubnationalRevenueGdp
    else
      let gdpGrowth := getNumD (getDictD state "economic_state") "gdp_growth" 0.05
      let inflation := getNumD state "inflation" 0.06
      let nominalGdpGrowth := (1 + gdpGrowth) * (1 + inflation) - 1
      m.totalSubnationalOwnRevenue * (1 + nominalGdpGrowth + m.subnationalRevenueCapacityGrowth)
  let ownRevenue := max 0 baseRev
  let availableResources := totalTransfers + ownRevenue
  let spending := max 0 (availableResources * 0.95 * m.subnationalSpendingEfficiency)
  let subnationalDeficit := spending - (totalTransfers + ownRevenue)
  let newBorrowing := max 0 subnationalDeficit
  let debtLimitAmount := m.subnationalDebtLimitGdp * gdp
  let allowedBorrowing := max 0 (debtLimitAmount - m.aggregateSubnationalDebt)
  let actualBorrowing := min newBorrowing allowedBorrowing
  let debt := max 0 (m.aggregateSubnationalDebt + actualBorrowing)
  ([("total_transfers", .num totalTransfers),
    ("total_subnational_own_revenue", .num ownRevenue),
    ("total_subnational_spending", .num spending),
    ("aggregate_subnational_debt", .num debt)],
   { m with subnationalRevenueCapacityIndex := capacityIndex, totalTransfers := totalTransfers,
            totalSubnationalOwnRevenue := ownRevenue, totalSubnationalSpending := spending,
            aggregateSubnationalDebt := debt })

/-- `simulate_fiscal_federalism`: degenerate `({}, 0)` return (modelled as
`none`) while GDP is unknown, lazy initialization otherwise. -/
def simulateFiscalFederalism (m : FiscalFederalismModel) (state : StateD) :
    Option StateD × FiscalFederalismModel :=
  if m.initialized then
    let r := ffBody m state
    (some r.1, r.2)
  else
    let initialGdp := getNumD (getDictD state "economic_state") "gdp" 0
    if 0 < initialGdp then
      let r := ffBody (ffInitializeState m initialGdp) state
      (some r.1, r.2)
    else (none, m)

/-- `simulate_expenditure` (`expenditure.py`, stateless): actual spending
is the budget scaled by the capacity/accountability efficiency factor,
split 60/40 between development and non-development. The
`political_economy` argument is only logged by the source. -/
def simulateExpenditure (budgetAllocation implementationCapacity accountabilityMechanisms
    politicalEconomy : ℚ) : StateD :=
  let efficiencyFactor := (implementationCapacity + accountabilityMechanisms) / 2
  let actualSpendingTotal := budgetAllocation * efficiencyFactor * 1
  let actualSpendingDetails : StateD :=
    [("development", .num (actualSpendingTotal * 0.6)),
     ("non_development", .num (actualSpendingTotal * 0.4))]
  let efficiencyScore := efficiencyFactor * 1
  [("actual_spending", .dict actualSpendingDetails),
   ("expenditure_efficiency", .num efficiencyScore)]

/-- `SOEModel` (`soe.py`). -/
structure SOEModel where
  (initialSoePerformance initialSoeDebtGdp gdpGrowthSensitivity governanceSensitivity : ℚ)
  (debtDragFactor dividendPayoutRatio transferNeedThreshold transferScaleFactor : ℚ)
  (performanceIndex soeDebtStock : ℚ)
  initialized : Bool

/-- `_initialize_debt`. -/
def soeInitializeDebt (m : SOEModel) (initialGdp : ℚ) : SOEModel :=
  { m with soeDebtStock := m.initialSoeDebtGdp * initialGdp, initialized := true }

/-- `_update_financial_performance`: performance index clamped to [0.1, 0.9]. -/
def soeUpdateFinancialPerformance (m : SOEModel) (state : StateD) : SOEModel :=
  let gdpGrowth := getNumD (getDictD state "economic_state") "gdp_growth" 0.05
  let governanceScore := getNumD (getDictD state "governance_state") "governance_index" 50 / 100
  let currentDebtGdp :=
    if 0 < getNumD (getDictD state "economic_state") "gdp" 0
    then m.soeDebtStock / getNumD (getDictD state "economic_state") "gdp" 1 else 0
  let performanceChange := m.gdpGrowthSensitivity * gdpGrowth
      + m.governanceSensitivity * (governanceScore - 0.5)
      + m.debtDragFactor * (currentDebtGdp - m.initialSoeDebtGdp)
  { m with performanceIndex := clamp 0.1 0.9 (m.performanceIndex + performanceChange) }

/-- `_calculate_fiscal_impact`: `(dividends, transfers)`. -/
def soeCalculateFiscalImpact (m : SOEModel) : ℚ × ℚ :=
  if 0.55 < m.performanceIndex then
    ((m.performanceIndex - 0.5) * m.soeDebtStock * 0.1 * m.dividendPayoutRatio, 0)
  else if m.performanceIndex < m.transferNeedThreshold then
    (0, (m.transferNeedThreshold - m.performanceIndex) * m.transferScaleFactor * m.soeDebtStock)
  else (0, 0)

/-- `_update_soe_debt`: the stock is floored at zero. -/
def soeUpdateDebt (m : SOEModel) (transfersReceived dividendsPaid : ℚ) : SOEModel :=
  let impliedProfitLoss := (m.performanceIndex - 0.5) * m.soeDebtStock * 0.1
  let debtChange := -impliedProfitLoss + transfersReceived - dividendsPaid
  { m with soeDebtStock := max 0 (m.soeDebtStock + debtChange) }

/-- Initialized body of `simulate_soe_sector`. -/
def soeBody (m : SOEModel) (state : StateD) : (ℚ × ℚ × ℚ) × SOEModel :=
  let m1 := soeUpdateFinancialPerformance m state
  let (dividends, transfers) := soeCalculateFiscalImpact m1
  let m2 := soeUpdateDebt m1 transfers dividends
  ((dividends, transfers, m2.soeDebtStock), m2)

/-- `simulate_soe_sector`: returns `(0, 0, 0)` (zero fiscal impact) while
GDP is unknown, lazily initializes the debt stock otherwise. -/
def simulateSoeSector (m : SOEModel) (state : StateD) : (ℚ × ℚ × ℚ) × SOEModel :=
  if m.initialized then soeBody m state
  else
    let initialGdp := getNumD (getDictD state "economic_state") "gdp" 0
    if 0 < initialGdp then soeBody (soeInitializeDebt m initialGdp) state
    else ((0, 0, 0), m)

/-- `DebtManagementModel` (`debt.py`): the private `debt_stock` dict plus
average rates and the DSA threshold. -/
structure DebtManagementModel where
  (debtDomestic debtExternal debtTotal : ℚ)
  (avgInterestRateDomestic avgInterestRateExternal dsaThresholdDebtToGdp : ℚ)

/-- The model's `debt_stock` attribute as the dict written into shared state. -/
def debtStockDict (m : DebtManagementModel) : StateD :=
  [("total", .num m.debtTotal),
   ("domestic", .num m.debtDomestic),
   ("external", .num m.debtExternal)]

/-- `_calculate_debt_service`: interest at average rates and fixed-fraction
principal repayment (5% domestic, 3% external) on the pre-update stock. -/
def calculateDebtService (m : DebtManagementModel) : StateD :=
  let interestDomestic := m.debtDomestic * m.avgInterestRateDomestic
  let interestExternal := m.debtExternal * m.avgInterestRateExternal
  let totalInterest := interestDomestic + interestExternal
  let principalRepaymentDomestic := m.debtDomestic * 0.05
  let principalRepaymentExternal := m.debtExternal * 0.03
  let totalPrincipalPaid := principalRepaymentDomestic + principalRepaymentExternal
  [("interest_domestic", .num interestDomestic),
   ("interest_external", .num interestExternal),
   ("total_interest", .num totalInterest),
   ("principal_domestic", .num principalRepaymentDomestic),
   ("principal_external", .num principalRepaymentExternal),
   ("total_principal", .num totalPrincipalPaid),
   ("total_service", .num (totalInterest + totalPrincipalPaid))]

/-- `_update_debt_stock`: deficit financed proportionally to the existing
debt structure; note the source applies no zero floor here. -/
def updateDebtStock (m : DebtManagementModel) (debtService : StateD)
    (deficitFinancing : ℚ) : DebtManagementModel :=
  let domesticShare := if m.debtTotal ≤ 0 then 0.5 else m.debtDomestic / m.debtTotal
  let newBorrowingDomestic := deficitFinancing * domesticShare
  let newBorrowingExternal := deficitFinancing * (1 - domesticShare)
  let dom := m.debtDomestic + newBorrowingDomestic - getNumD debtService "principal_domestic" 0
  let ext := m.debtExternal + newBorrowingExternal - getNumD debtService "principal_external" 0
  { m with debtDomestic := dom, debtExternal := ext, debtTotal := dom + ext }

/-- `_perform_dsa`: substitutes 1 for a non-positive GDP or revenue
denominator instead of skipping the ratio. -/
def performDsa (m : DebtManagementModel) (state : StateD) : StateD :=
  let gdp0 := getNumD (getDictD state "economic_state") "gdp" 1
  let gdp := if gdp0 ≤ 0 then 1 else gdp0
  let debtToGdp := m.debtTotal / gdp
  let totalRevenue0 := getNumD state "total_revenue" 1
  let totalRevenue := if totalRevenue0 ≤ 0 then 1 else totalRevenue0
  let debtService := getDictD state "debt_service"
  let debtServiceToRevenue := getNumD debtService "total_service" 0 / totalRevenue
  [("debt_to_gdp", .num debtToGdp),
   ("debt_service_to_revenue", .num debtServiceToRevenue),
   ("breached_threshold", .bool (decide (m.dsaThresholdDebtToGdp < debtToGdp)))]

/-- `simulate_debt_dynamics`: service on last year's stock, stock update
from deficit financing, then DSA on a copy of the state carrying the
just-updated stock and service. Returns `(debt_stock, dsa, debt_service)`
and the updated model. -/
def simulateDebtDynamics (m : DebtManagementModel) (state : StateD) (deficitFinancing : ℚ) :
    (StateD × StateD × StateD) × DebtManagementModel :=
  let debtService := calculateDebtService m
  let m1 := updateDebtStock m debtService deficitFinancing
  let stateForDsa := setD (setD state "debt_stock" (.dict (debtStockDict m1)))
      "debt_service" (.dict debtService)
  let sustainabilityMetrics := performDsa m1 stateForDsa
  ((debtStockDict m1, sustainabilityMetrics, debtService), m1)

/-- `PolicyCoordinationModel` (`policy_coordination.py`). -/
structure PolicyCoordinationModel where
  (baseCoordinationScore conflictThresholdInflation conflictThresholdDeficit : ℚ)
  (conflictImpact institutionalImpact : ℚ)
  currentCoordinationScore : ℚ

/-- `_assess_policy_conflict`. -/
def assessPolicyConflict (m : PolicyCoordinationModel) (state : StateD) : Bool :=
  let inflation := getNumD state "inflation" 0.07
  let deficit := getNumD state "deficit" 0
  let gdp := getNumD (getDictD state "economic_state") "gdp" 1
  let deficitGdpRatio := if 0 < gdp then deficit / gdp else 0
  decide (m.conflictThresholdInflation < inflation)
    && decide (m.conflictThresholdDeficit < deficitGdpRatio)

/-- `simulate_coordination`: score change from conflict and institutional
strength, clamped to [0.1, 0.9]. -/
def simulateCoordination (m : PolicyCoordinationModel) (state : StateD) :
    ℚ × PolicyCoordinationModel :=
  let conflictExists := assessPolicyConflict m state
  let frameworkStrength := getNumD state "governance_index" 50 / 100
  let scoreChange := (if conflictExists then m.conflictImpact else 0)
      + (if 0.5 < frameworkStrength then m.institutionalImpact * (frameworkStrength - 0.5) * 2 else 0)
  let score := clamp 0.1 0.9 (m.currentCoordinationScore + scoreChange)
  (score, { m with currentCoordinationScore := score })

/-! ## Orchestrator (`src/simulation.py`) -/

/-- Simulation-wide configuration: `config['simulation']` plus the two
initial ratios read by `_initialize_state`. -/
structure SimConfig where
  (startYear endYear : ℕ)
  (initialGdp initialGdpGrowth baseRealGdpGrowth : ℚ)
  (initialInflation inflationPersistence : ℚ)
  (initialDebtGdpRatio initialNplRatio : ℚ)

/-- The three random draws consumed in one simulated year:
`np.random.normal(0, 0.05)` in `_update_economic_state`,
`random.uniform(0.98, 1.05)` in the external sector, and
`random.uniform(0.90, 1.10)` in development finance. -/
structure Draws where
  (growthNoise extGlobalFactor aidGlobalFactor : ℚ)

/-- The sector model instances held by the simulation object
(the expenditure model is stateless). -/
structure Models where
  governanceModel : GovernanceModel
  supervisionModel : SupervisionModel
  financialSectorModel : FinancialSectorModel
  monetaryPolicyModel : MonetaryPolicyModel
  externalSectorModel : ExternalSectorModel
  devFinanceModel : DevelopmentFinanceModel
  revenueModel : RevenueModel
  fiscalFederalismModel : FiscalFederalismModel
  soeModel : SOEModel
  debtModel : DebtManagementModel
  policyCoordModel : PolicyCoordinationModel

/-- `_initialize_state`: the shared state dict for the first year. -/
def initState (cfg : SimConfig) : StateD :=
  [("economic_state", .dict
      [("gdp", .num cfg.initialGdp),
       ("gdp_growth", .num cfg.initialGdpGrowth),
       ("real_gdp_growth", .num cfg.baseRealGdpGrowth)]),
   ("inflation", .num cfg.initialInflation),
   ("debt_stock", .num (cfg.initialDebtGdpRatio * cfg.initialGdp)),
   ("npl_ratio", .num cfg.initialNplRatio),
   ("fx_reserves", .num 0),
   ("soe_debt_stock", .num 0),
   ("governance_state", .dict []),
   ("revenue_state", .dict []),
   ("expenditure_state", .dict []),
   ("debt_state", .dict []),
   ("financial_sector_state", .dict []),
   ("monetary_policy_state", .dict []),
   ("policy_coordination_state", .dict []),
   ("supervision_state", .dict []),
   ("soe_state", .dict []),
   ("external_sector_state", .dict []),
   ("fiscal_federalism_state", .dict []),
   ("dev_finance_state", .dict []),
   ("deficit", .num 0),
   ("primary_deficit", .num 0)]

/-- `_update_economic_state`: current growth from the configured base plus
noise, inflation from last period's monetary-policy projection (or mean
reversion on the very first year), bounded to [1%, 15%]; nominal GDP is
rolled forward and `inflation`/`economic_state` updated in place. -/
def updateEconomicState (cfg : SimConfig) (s : StateD) (growthNoise : ℚ) : StateD :=
  let currentRealGrowth := cfg.baseRealGdpGrowth * (1 + growthNoise)
  let prevInflation := getNumD s "inflation" 0
  let mpState := getDictD s "monetary_policy_state"
  let baseInflation :=
    if hasKey mpState "projected_inflation" then getNumD mpState "projected_inflation" 0
    else prevInflation * cfg.inflationPersistence
        + (1 - cfg.inflationPersistence) * cfg.initialInflation
  let currentInflation := max 0.01 (min 0.15 baseInflation)
  let econ := getDictD s "economic_state"
  let prevGdp := getNumD econ "gdp" 0
  let currentGdp := prevGdp * (1 + currentRealGrowth) * (1 + currentInflation)
  let gdpGrowth := if 0 < prevGdp then currentGdp / prevGdp - 1 else 0
  let econ2 := setD (setD (setD (setD econ "gdp" (.num currentGdp))
      "gdp_growth" (.num gdpGrowth)) "real_gdp_growth" (.num currentRealGrowth))
      "inflation_rate" (.num currentInflation)
  setD (setD s "economic_state" (.dict econ2)) "inflation" (.num currentInflation)

/-- One Result Ledger row (`results_for_year` in `_store_results`): every
metric is an optional rational, `none` being `np.nan` (the missing marker). -/
structure Entry where
  (gdp gdpGrowth inflation : Option ℚ)
  (totalRevenue centralRevenue revenueGdp : Option ℚ)
  (totalExpenditure centralExpenditure expenditureGdp : Option ℚ)
  (overallDeficit primaryDeficit overallDeficitGdp primaryDeficitGdp : Option ℚ)
  (debtStockTotal debtStockDomestic debtStockExternal debtStockGdp : Option ℚ)
  (debtService interestPayments dsaDebtGdpRatio dsaServiceRevenueRatio : Option ℚ)
  (exports imports remittances fdi cabGdp fxReservesMonths : Option ℚ)
  (governanceIndex pfmScore nbrScore acScore accountabilityScore : Option ℚ)
  (financialStabilityIndex nplRatio carRatio policyRate supervisionEffectiveness : Option ℚ)
  (soePerformance soeDebtGdp subnationalOwnRevenue subnationalDebt : Option ℚ)
  (grantReceipts dfiLending expenditureEfficiency policyCoordinationScore : Option ℚ)
deriving DecidableEq

/-- `_store_results`: read the designated keys out of the shared state.
Ratios written as `x / gdp if gdp else np.nan` in the source become
`none` when `gdp = 0` (the only falsy float value reachable there). -/
def storeResults (s : StateD) : Entry :=
  let econ := getDictD s "economic_state"
  let gdpVal := getNumD econ "gdp" 0
  let overGdp : Option ℚ → Option ℚ :=
    fun x => if gdpVal = 0 then none else x.map (fun v => v / gdpVal)
  { gdp := getNumOpt econ "gdp"
    gdpGrowth := getNumOpt econ "gdp_growth"
    inflation := getNumOpt econ "inflation_rate"
    totalRevenue := getNumOpt s "total_revenue"
    centralRevenue := getNumOpt s "central_revenue"
    revenueGdp := overGdp (getNumOpt s "total_revenue")
    totalExpenditure := getNumOpt s "total_expenditure"
    centralExpenditure := getNumOpt s "central_expenditure"
    expenditureGdp := overGdp (getNumOpt s "total_expenditure")
    overallDeficit := getNumOpt s "deficit"
    primaryDeficit := getNumOpt s "primary_deficit"
    overallDeficitGdp := overGdp (getNumOpt s "deficit")
    primaryDeficitGdp := overGdp (getNumOpt s "primary_deficit")
    debtStockTotal := getNumOpt (getDictD s "debt_stock") "total"
    debtStockDomestic := getNumOpt (getDictD s "debt_stock") "domestic"
    debtStockExternal := getNumOpt (getDictD s "debt_stock") "external"
    debtStockGdp := overGdp (getNumOpt (getDictD s "debt_stock") "total")
    debtService := getNumOpt (getDictD s "debt_service_calculated") "total_service"
    interestPayments := getNumOpt (getDictD s "debt_service_calculated") "total_interest_paid"
    dsaDebtGdpRatio := getNumOpt (getDictD s "dsa_results") "debt_to_gdp"
    dsaServiceRevenueRatio := getNumOpt (getDictD s "dsa_results") "service_to_revenue"
    exports := getNumOpt (getDictD s "external_sector_state") "exports"
    imports := getNumOpt (getDictD s "external_sector_state") "imports"
    remittances := getNumOpt (getDictD s "external_sector_state") "remittances"
    fdi := getNumOpt (getDictD s "external_sector_state") "fdi"
    cabGdp := getNumOpt (getDictD s "external_sector_state") "cab_gdp"
    fxReservesMonths := getNumOpt (getDictD s "external_sector_state") "reserves_months_imp"
    governanceIndex := getNumOpt s "governance_index"
    pfmScore := getNumOpt (getDictD s "governance_state") "pfm_level"
    nbrScore := getNumOpt (getDictD s "governance_state") "nbr_capacity"
    acScore := getNumOpt (getDictD s "governance_state") "anti_corruption_effectiveness"
    accountabilityScore := getNumOpt (getDictD s "governance_state") "accountability_level"
    financialStabilityIndex := getNumOpt (getDictD s "financial_sector_state") "financial_stability_index"
    nplRatio := getNumOpt (getDictD s "financial_sector_state") "npl_ratio"
    carRatio := getNumOpt (getDictD s "financial_sector_state") "capital_adequacy_ratio"
    policyRate := getNumOpt s "policy_rate"
    supervisionEffectiveness := getNumOpt s "supervision_effectiveness"
    soePerformance := getNumOpt (getDictD s "soe_state") "performance_index"
    soeDebtGdp := overGdp (getNumOpt (getDictD s "soe_state") "debt")
    subnationalOwnRevenue := getNumOpt (getDictD s "fiscal_federalism_state") "own_revenue"
    subnationalDebt := getNumOpt (getDictD s "fiscal_federalism_state") "aggregate_debt"
    grantReceipts := getNumOpt (getDictD s "development_finance_state") "grants"
    dfiLending := getNumOpt (getDictD s "development_finance_state") "dfi_net_lending"
    expenditureEfficiency := getNumOpt (getDictD s "expenditure_outputs") "expenditure_efficiency"
    policyCoordinationScore := getNumOpt s "policy_coordination_score" }

/-- The local values of one `run_single_year` call (the source's local
variables), together with the updated models, final shared state, and the
Result Ledger entry stored for the year. -/
structure YearTrace where
  models : Models
  state : StateD
  (finalRevenue transfersToSubnational revenueForCentralGov : ℚ)
  (realizedCentralSpending soeDividends soeTransfers soeDebt : ℚ)
  (totalRevenueIncSoe totalExpenditureIncSoe deficit : ℚ)
  (interestPayments primaryDeficit coordScore : ℚ)
  (debtStockOut dsaResults debtServiceCalculated : StateD)
  entry : Entry

/-! `run_single_year` is embedded as a composition of one small step
definition per numbered block of the source, each performing the sector
call and the orchestrator's state-merge discipline
(`state[sub_record] = outputs; state.update(outputs)`) for that block. -/

/-- Block 1 of `run_single_year` (Governance). -/
def stepGovernance (m : GovernanceModel) (s : StateD) : StateD × GovernanceModel :=
  let gov := simulateGovernanceEvolution m
  (supdate (setD s "governance_state" (.dict gov.1)) gov.1, gov.2)

/-- Block 2 of `run_single_year` (Supervision). -/
def stepSupervision (m : SupervisionModel) (s : StateD) : StateD × SupervisionModel :=
  let sup := simulateSupervisionEffectiveness m s
  let supOut : StateD := [("supervision_effectiveness", .num sup.1)]
  (supdate (setD s "supervision_state" (.dict supOut)) supOut, sup.2)

/-- Block 3 of `run_single_year` (Financial sector). -/
def stepFinancial (m : FinancialSectorModel) (s : StateD) : StateD × FinancialSectorModel :=
  let fin := simulateFinancialSystem m s
  (supdate (setD s "financial_sector_state" (.dict fin.1)) fin.1, fin.2)

/-- Block 4 of `run_single_year` (Monetary policy). -/
def stepMonetary (m : MonetaryPolicyModel) (s : StateD) : StateD × MonetaryPolicyModel :=
  let mp := simulateMonetaryConditions m s
  let mpOut : StateD := [("policy_rate", .num mp.1.1), ("projected_inflation", .num mp.1.2)]
  (supdate (setD s "monetary_policy_state" (.dict mpOut)) mpOut, mp.2)

/-- Block 5 of `run_single_year` (External sector); `none` when the sector
returns its degenerate `({}, 0)` tuple, on which the orchestrator's
`state.update` would raise `ValueError` and abort the year. -/
def stepExternal (m : ExternalSectorModel) (s : StateD) (globalFactor : ℚ) :
    Option (StateD × ExternalSectorModel) :=
  match simulateExternalSector m s globalFactor with
  | (none, _) => none
  | (some extOut, extM) => some (supdate (setD s "external_sector_state" (.dict extOut)) extOut, extM)

/-- Block 6 of `run_single_year` (Development finance); `none` when the
sector returns its degenerate `({}, 0, 0)` tuple (aborting the year). -/
def stepDevFinance (m : DevelopmentFinanceModel) (s : StateD) (globalAidFactor : ℚ) :
    Option (StateD × DevelopmentFinanceModel) :=
  match simulateDevelopmentFinance m s globalAidFactor with
  | (none, _) => none
  | (some devOut, devM) => some (supdate (setD s "dev_finance_state" (.dict devOut)) devOut, devM)

/-- Block 7 of `run_single_year` (Revenue); also returns the source's
`final_revenue` local (`rev_outputs['final_revenue']`). -/
def stepRevenue (m : RevenueModel) (s : StateD) : StateD × ℚ × RevenueModel :=
  let rev := projectRevenue m (getDictD s "economic_state") (getDictD s "governance_state")
  (supdate (setD s "revenue_state" (.dict rev.1)) rev.1, getNumD rev.1 "final_revenue" 0, rev.2)

/-- Block 8 of `run_single_year` (Fiscal federalism); `none` when the
sector returns its degenerate `({}, 0)` tuple (aborting the year); also
returns `transfers_to_subnational = ff_outputs['total_transfers']`. -/
def stepFiscalFederalism (m : FiscalFederalismModel) (s : StateD) :
    Option (StateD × ℚ × FiscalFederalismModel) :=
  match simulateFiscalFederalism m s with
  | (none, _) => none
  | (some ffOut, ffM) =>
      some (supdate (setD s "fiscal_federalism_state" (.dict ffOut)) ffOut,
        getNumD ffOut "total_transfers" 0, ffM)

/-- End of block 8: `state['revenue_state']['revenue_for_central_gov'] = ...`. -/
def writeRevenueForCentralGov (s : StateD) (revenueForCentralGov : ℚ) : StateD :=
  setD s "revenue_state"
    (.dict (setD (getDictD s "revenue_state") "revenue_for_central_gov"
      (.num revenueForCentralGov)))

/-- Block 9 of `run_single_year` (Expenditure); returns the realized
central spending, `sum(exp_outputs.get('actual_spending', {}).values())`. -/
def stepExpenditure (s : StateD) : StateD × ℚ :=
  let expOut := simulateExpenditure (getNumD s "final_revenue" 0)
      (getNumD (getDictD s "governance_state") "pfm_effectiveness" 0.5)
      (getNumD (getDictD s "governance_state") "accountability_index" 0.5)
      (getNumD (getDictD s "governance_state") "governance_index" 0.5)
  (supdate (setD s "expenditure_state" (.dict expOut)) expOut,
   sumNums (getDictD expOut "actual_spending"))

/-- Block 10 of `run_single_year` (SOE): stores the sector's `(dividends,
transfers_needed, debt)` under `soe_state` and updates `soe_debt_stock`. -/
def stepSoe (m : SOEModel) (s : StateD) : StateD × (ℚ × ℚ × ℚ) × SOEModel :=
  let soe := simulateSoeSector m s
  (setD (setD s "soe_state"
      (.dict [("dividends", .num soe.1.1), ("transfers_needed", .num soe.1.2.1),
              ("debt", .num soe.1.2.2)]))
      "soe_debt_stock" (.num soe.1.2.2), soe.1, soe.2)

/-- Fiscal-aggregate block: `state['deficit'] = deficit`. -/
def writeDeficit (s : StateD) (deficit : ℚ) : StateD :=
  setD s "deficit" (.num deficit)

/-- Block 11 of `run_single_year` (Debt): store the returned stock, DSA
results and calculated service; returns the three dicts as well. -/
def stepDebt (m : DebtManagementModel) (s : StateD) (deficit : ℚ) :
    StateD × (StateD × StateD × StateD) × DebtManagementModel :=
  let debt := simulateDebtDynamics m s deficit
  (setD (setD (setD s "debt_stock" (.dict debt.1.1))
      "dsa_results" (.dict debt.1.2.1)) "debt_service_calculated" (.dict debt.1.2.2),
   debt.1, debt.2)

/-- Primary-deficit block: `state['primary_deficit'] = ...`. -/
def writePrimaryDeficit (s : StateD) (primaryDeficit : ℚ) : StateD :=
  setD s "primary_deficit" (.num primaryDeficit)

/-- Block 12 of `run_single_year` (Policy coordination): only the
sub-record is written (no top-level promotion in the source). -/
def stepPolicyCoordination (m : PolicyCoordinationModel) (s : StateD) :
    StateD × ℚ × PolicyCoordinationModel :=
  let pc := simulateCoordination m s
  (setD s "policy_coordination_state" (.dict [("coordination_score", .num pc.1)]), pc.1, pc.2)

/-- `run_single_year`: the fixed sector order of the source, composed from
the block steps above. Returns `none` where the source would raise. -/
def runYear (cfg : SimConfig) (M : Models) (s : StateD) (d : Draws) : Option YearTrace :=
  let s0 := updateEconomicState cfg s d.growthNoise
  let g := stepGovernance M.governanceModel s0
  let sup := stepSupervision M.supervisionModel g.1
  let fin := stepFinancial M.financialSectorModel sup.1
  let mp := stepMonetary M.monetaryPolicyModel fin.1
  match stepExternal M.externalSectorModel mp.1 d.extGlobalFactor with
  | none => none
  | some ext =>
  match stepDevFinance M.devFinanceModel ext.1 d.aidGlobalFactor with
  | none => none
  | some dev =>
  let rev := stepRevenue M.revenueModel dev.1
  let finalRevenue := rev.2.1
  match stepFiscalFederalism M.fiscalFederalismModel rev.1 with
  | none => none
  | some ff =>
  let transfersToSubnational := ff.2.1
  let revenueForCentralGov := finalRevenue - transfersToSubnational
  let s9 := writeRevenueForCentralGov ff.1 revenueForCentralGov
  let exp := stepExpenditure s9
  let realizedCentralSpending := exp.2
  let soe := stepSoe M.soeModel exp.1
  let soeDividends := soe.2.1.1
  let soeTransfers := soe.2.1.2.1
  let soeDebt := soe.2.1.2.2
  let totalRevenueIncSoe := revenueForCentralGov + soeDividends
  let totalExpenditureIncSoe := realizedCentralSpending + soeTransfers
  let deficit := totalExpenditureIncSoe - totalRevenueIncSoe
  let s12 := writeDeficit soe.1 deficit
  let debt := stepDebt M.debtModel s12 deficit
  let interestPayments := getNumD debt.2.1.2.2 "total_interest_paid" 0
  let primaryDeficit := deficit - interestPayments
  let s14 := writePrimaryDeficit debt.1 primaryDeficit
  let pc := stepPolicyCoordination M.policyCoordModel s14
  some
    { models :=
        { governanceModel := g.2, supervisionModel := sup.2, financialSectorModel := fin.2,
          monetaryPolicyModel := mp.2, externalSectorModel := ext.2, devFinanceModel := dev.2,
          revenueModel := rev.2.2, fiscalFederalismModel := ff.2.2, soeModel := soe.2.2,
          debtModel := debt.2.2, policyCoordModel := pc.2.2 }
      state := pc.1
      finalRevenue := finalRevenue
      transfersToSubnational := transfersToSubnational
      revenueForCentralGov := revenueForCentralGov
      realizedCentralSpending := realizedCentralSpending
      soeDividends := soeDividends
      soeTransfers := soeTransfers
      soeDebt := soeDebt
      totalRevenueIncSoe := totalRevenueIncSoe
      totalExpenditureIncSoe := totalExpenditureIncSoe
      deficit := deficit
      interestPayments := interestPayments
      primaryDeficit := primaryDeficit
      coordScore := pc.2.1
      debtStockOut := debt.2.1.1
      dsaResults := debt.2.1.2.1
      debtServiceCalculated := debt.2.1.2.2
      entry := storeResults pc.1 }

/-- The year loop of `run_simulation`: one completed year appends exactly
one `(year, entry)` row to the Result Ledger; an aborted year (a raised
exception in `run_single_year`) ends the run with the rows already stored. -/
def runYears (cfg : SimConfig) (ds : ℕ → Draws) :
    Models → StateD → List ℕ → List (ℕ × Entry)
  | _, _, [] => []
  | M, s, y :: ys =>
    match runYear cfg M s (ds y) with
    | none => []
    | some t => (y, t.entry) :: runYears cfg ds t.models t.state ys

/-- `self.years = range(start_year, end_year + 1)`. -/
def simYears (cfg : SimConfig) : List ℕ :=
  List.range' cfg.startYear (cfg.endYear + 1 - cfg.startYear)

/-- `run_simulation`: run every configured year in order from the initial
state, producing the Result Ledger. -/
def runSimulation (cfg : SimConfig) (M : Models) (ds : ℕ → Draws) : List (ℕ × Entry) :=
  runYears cfg ds M (initState cfg) (simYears cfg)

/-! ## Infrastructure lemmas -/

theorem lookupD_supdate_not_mem (kvs : StateD) (s : StateD) {q : String}
    (h : q ∉ kvs.map Prod.fst) : lookupD (supdate s kvs) q = lookupD s q := by
  induction kvs generalizing s with
  | nil => rfl
  | cons p r ih =>
      simp only [List.map_cons, List.mem_cons, not_or] at h
      rw [supdate_cons _ p.1 p.2, ih _ h.2, lookupD_setD_ne _ h.1]

/-- The GDP currently recorded in the shared state:
`state.get('economic_state', {}).get('gdp', 0)`. -/
def econGdp (s : StateD) : ℚ := getNumD (getDictD s "economic_state") "gdp" 0

theorem getNumD_congr {s s' : StateD} {q : String} (h : lookupD s q = lookupD s' q) (d : ℚ) :
    getNumD s q d = getNumD s' q d := by
  unfold getNumD
  rw [h]

theorem getNumOpt_congr {s s' : StateD} {q : String} (h : lookupD s q = lookupD s' q) :
    getNumOpt s q = getNumOpt s' q := by
  unfold getNumOpt
  rw [h]

theorem getDictD_congr {s s' : StateD} {q : String} (h : lookupD s q = lookupD s' q) :
    getDictD s q = getDictD s' q := by
  unfold getDictD
  rw [h]

/-- Top-level keys written by `_update_economic_state`. -/
def econKeys : List String := ["economic_state", "inflation"]

theorem updateEconomicState_frame (cfg : SimConfig) (s : StateD) (e : ℚ) {q : String}
    (h : q ∉ econKeys) : lookupD (updateEconomicState cfg s e) q = lookupD s q := by
  simp only [econKeys, List.mem_cons, List.not_mem_nil, not_or, or_false] at h
  rw [updateEconomicState, lookupD_setD_ne _ h.2, lookupD_setD_ne _ h.1]

/-- Top-level keys written by the Governance block. -/
def govKeys : List String :=
  ["governance_state", "governance_index", "pfm_reform_level", "nbr_modernization_level",
   "central_bank_capacity", "anti_corruption_effectiveness", "accountability_score"]

theorem stepGovernance_frame (m : GovernanceModel) (s : StateD) {q : String}
    (h : q ∉ govKeys) : lookupD (stepGovernance m s).1 q = lookupD s q := by
  simp only [govKeys, List.mem_cons, List.not_mem_nil, not_or, or_false] at h
  rw [stepGovernance]
  rw [lookupD_supdate_not_mem _ _ (by simp [simulateGovernanceEvolution]; tauto)]
  exact lookupD_setD_ne _ h.1 _

/-- Top-level keys written by the Supervision block. -/
def supKeys : List String := ["supervision_state", "supervision_effectiveness"]

theorem stepSupervision_frame (m : SupervisionModel) (s : StateD) {q : String}
    (h : q ∉ supKeys) : lookupD (stepSupervision m s).1 q = lookupD s q := by
  simp only [supKeys, List.mem_cons, List.not_mem_nil, not_or, or_false] at h
  rw [stepSupervision]
  rw [lookupD_supdate_not_mem _ _ (by simp; tauto)]
  exact lookupD_setD_ne _ h.1 _

/-- Top-level keys written by the Financial-sector block. -/
def finKeys : List String :=
  ["financial_sector_state", "npl_ratio", "capital_adequacy_ratio", "stability_index"]

theorem stepFinancial_frame (m : FinancialSectorModel) (s : StateD) {q : String}
    (h : q ∉ finKeys) : lookupD (stepFinancial m s).1 q = lookupD s q := by
  simp only [finKeys, List.mem_cons, List.not_mem_nil, not_or, or_false] at h
  rw [stepFinancial]
  rw [lookupD_supdate_not_mem _ _ (by simp [simulateFinancialSystem]; tauto)]
  exact lookupD_setD_ne _ h.1 _

/-- Top-level keys written by the Monetary-policy block. -/
def mpKeys : List String := ["monetary_policy_state", "policy_rate", "projected_inflation"]

theorem stepMonetary_frame (m : MonetaryPolicyModel) (s : StateD) {q : String}
    (h : q ∉ mpKeys) : lookupD (stepMonetary m s).1 q = lookupD s q := by
  simp only [mpKeys, List.mem_cons, List.not_mem_nil, not_or, or_false] at h
  rw [stepMonetary]
  rw [lookupD_supdate_not_mem _ _ (by simp; tauto)]
  exact lookupD_setD_ne _ h.1 _

/-- The external-sector outputs dict, re-expressed through the updated
model (the dict built at the end of `simulate_external_sector`). -/
def externalOutputsDict (m : ExternalSectorModel) : StateD :=
  [("exports", .num m.exports), ("imports", .num m.imports),
   ("remittances", .num m.remittances), ("fdi", .num m.fdi),
   ("current_account_balance", .num m.currentAccountBalance),
   ("overall_bop", .num m.overallBop), ("fx_reserves", .num m.fxReserves),
   ("reserves_months_imports",
    .num (if 0 < m.imports then m.fxReserves / (m.imports / 12) else 0))]

theorem externalBody_shape (m : ExternalSectorModel) (s : StateD) (gf : ℚ) :
    ∃ m', externalBody m s gf = (some (externalOutputsDict m'), m')
      ∧ m'.initialized = m.initialized ∧ 0 ≤ m'.fxReserves := by
  refine ⟨_, rfl, ?_, ?_⟩
  · simp [externalBody, externalUpdateReserves, externalCalculateBop, externalProjectFlows]
  · simp only [externalBody, externalUpdateReserves]
    exact le_max_left _ _

theorem simulateExternalSector_shape (m : ExternalSectorModel) (s : StateD) (gf : ℚ)
    {out : StateD} {m' : ExternalSectorModel}
    (h : simulateExternalSector m s gf = (some out, m')) :
    out = externalOutputsDict m' ∧ m'.initialized = true ∧ 0 ≤ m'.fxReserves := by
  rw [simulateExternalSector] at h
  by_cases hInit : m.initialized = true
  · rw [if_pos hInit] at h
    obtain ⟨mm, hb, hi, hfx⟩ := externalBody_shape m s gf
    rw [hb] at h
    obtain ⟨h1, h2⟩ := Prod.mk.injEq .. ▸ h
    cases h1
    cases h2
    exact ⟨rfl, hi.trans hInit, hfx⟩
  · rw [if_neg hInit] at h
    by_cases hg : 0 < getNumD (getDictD s "economic_state") "gdp" 0
    · rw [if_pos hg] at h
      obtain ⟨mm, hb, hi, hfx⟩ := externalBody_shape (externalInitializeState m
        (getNumD (getDictD s "economic_state") "gdp" 0)) s gf
      rw [hb] at h
      obtain ⟨h1, h2⟩ := Prod.mk.injEq .. ▸ h
      cases h1
      cases h2
      exact ⟨rfl, hi, hfx⟩
    · rw [if_neg hg] at h
      obtain ⟨h1, _⟩ := Prod.mk.injEq .. ▸ h
      exact absurd h1 (by simp)

theorem stepExternal_shape (m : ExternalSectorModel) (s : StateD) (gf : ℚ)
    {s' : StateD} {m' : ExternalSectorModel} (h : stepExternal m s gf = some (s', m')) :
    s' = supdate (setD s "external_sector_state" (.dict (externalOutputsDict m')))
        (externalOutputsDict m')
      ∧ m'.initialized = true ∧ 0 ≤ m'.fxReserves := by
  rw [stepExternal] at h
  rcases hS : simulateExternalSector m s gf with ⟨o, mm⟩
  rw [hS] at h
  cases o with
  | none => exact absurd h (by simp)
  | some out =>
      obtain ⟨ho, hi, hfx⟩ := simulateExternalSector_shape m s gf hS
      simp only [Option.some.injEq, Prod.mk.injEq] at h
      obtain ⟨h1, h2⟩ := h
      cases h2
      cases ho
      exact ⟨h1.symm, hi, hfx⟩

/-- Top-level keys written by the External-sector block. -/
def extKeys : List String :=
  ["external_sector_state", "exports", "imports", "remittances", "fdi",
   "current_account_balance", "overall_bop", "fx_reserves", "reserves_months_imports"]

theorem stepExternal_frame (m : ExternalSectorModel) (s : StateD) (gf : ℚ)
    {s' : StateD} {m' : ExternalSectorModel} (h : stepExternal m s gf = some (s', m'))
    {q : String} (hq : q ∉ extKeys) : lookupD s' q = lookupD s q := by
  obtain ⟨h1, -, -⟩ := stepExternal_shape m s gf h
  simp only [extKeys, List.mem_cons, List.not_mem_nil, not_or, or_false] at hq
  rw [h1]
  rw [lookupD_supdate_not_mem _ _ (by simp [externalOutputsDict]; tauto)]
  exact lookupD_setD_ne _ hq.1 _

theorem stepExternal_isSome (m : ExternalSectorModel) (s : StateD) (gf : ℚ)
    (h : m.initialized = true ∨ 0 < econGdp s) : (stepExternal m s gf).isSome = true := by
  rw [stepExternal, simulateExternalSector]
  by_cases hInit : m.initialized = true
  · rw [if_pos hInit]
    obtain ⟨mm, hb, -, -⟩ := externalBody_shape m s gf
    rw [hb]
    rfl
  · rw [if_neg hInit]
    have hg : 0 < getNumD (getDictD s "economic_state") "gdp" 0 := by
      rcases h with h | h
      · exact absurd h hInit
      · exact h
    rw [if_pos hg]
    obtain ⟨mm, hb, -, -⟩ := externalBody_shape (externalInitializeState m
      (getNumD (getDictD s "economic_state") "gdp" 0)) s gf
    rw [hb]
    rfl

/-- The development-finance outputs dict through the updated model. -/
def devFinanceOutputsDict (m : DevelopmentFinanceModel) : StateD :=
  [("grant_aid", .num m.grantAid), ("dfi_net_lending", .num m.dfiNetLending)]

theorem simulateDevelopmentFinance_shape (m : DevelopmentFinanceModel) (s : StateD) (gaf : ℚ)
    {out : StateD} {m' : DevelopmentFinanceModel}
    (h : simulateDevelopmentFinance m s gaf = (some out, m')) :
    out = devFinanceOutputsDict m' ∧ m'.initialized = true := by
  rw [simulateDevelopmentFinance] at h
  by_cases hInit : m.initialized = true
  · rw [if_pos hInit] at h
    obtain ⟨h1, h2⟩ := Prod.mk.injEq .. ▸ h
    simp only [devFinanceBody, Option.some.injEq] at h1
    cases h2
    refine ⟨h1.symm.trans ?_, ?_⟩
    · rfl
    · simp [devFinanceSimulateFlows]
      exact hInit
  · rw [if_neg hInit] at h
    by_cases hg : 0 < getNumD (getDictD s "economic_state") "gdp" 0
    · rw [if_pos hg] at h
      obtain ⟨h1, h2⟩ := Prod.mk.injEq .. ▸ h
      simp only [devFinanceBody, Option.some.injEq] at h1
      cases h2
      refine ⟨h1.symm.trans ?_, ?_⟩
      · rfl
      · simp [devFinanceSimulateFlows, devFinanceInitializeState]
    · rw [if_neg hg] at h
      obtain ⟨h1, -⟩ := Prod.mk.injEq .. ▸ h
      exact absurd h1 (by simp)

theorem stepDevFinance_shape (m : DevelopmentFinanceModel) (s : StateD) (gaf : ℚ)
    {s' : StateD} {m' : DevelopmentFinanceModel} (h : stepDevFinance m s gaf = some (s', m')) :
    s' = supdate (setD s "dev_finance_state" (.dict (devFinanceOutputsDict m')))
        (devFinanceOutputsDict m')
      ∧ m'.initialized = true := by
  rw [stepDevFinance] at h
  rcases hS : simulateDevelopmentFinance m s gaf with ⟨o, mm⟩
  rw [hS] at h
  cases o with
  | none => exact absurd h (by simp)
  | some out =>
      obtain ⟨ho, hi⟩ := simulateDevelopmentFinance_shape m s gaf hS
      simp only [Option.some.injEq, Prod.mk.injEq] at h
      obtain ⟨h1, h2⟩ := h
      cases h2
      cases ho
      exact ⟨h1.symm, hi⟩

/-- Top-level keys written by the Development-finance block. -/
def devKeys : List String := ["dev_finance_state", "grant_aid", "dfi_net_lending"]

theorem stepDevFinance_frame (m : DevelopmentFinanceModel) (s : StateD) (gaf : ℚ)
    {s' : StateD} {m' : DevelopmentFinanceModel} (h : stepDevFinance m s gaf = some (s', m'))
    {q : String} (hq : q ∉ devKeys) : lookupD s' q = lookupD s q := by
  obtain ⟨h1, -⟩ := stepDevFinance_shape m s gaf h
  simp only [devKeys, List.mem_cons, List.not_mem_nil, not_or, or_false] at hq
  rw [h1]
  rw [lookupD_supdate_not_mem _ _ (by simp [devFinanceOutputsDict]; tauto)]
  exact lookupD_setD_ne _ hq.1 _

theorem stepDevFinance_isSome (m : DevelopmentFinanceModel) (s : StateD) (gaf : ℚ)
    (h : m.initialized = true ∨ 0 < econGdp s) : (stepDevFinance m s gaf).isSome = true := by
  rw [stepDevFinance, simulateDevelopmentFinance]
  by_cases hInit : m.initialized = true
  · rw [if_pos hInit]
    rfl
  · rw [if_neg hInit]
    have hg : 0 < getNumD (getDictD s "economic_state") "gdp" 0 := by
      rcases h with h | h
      · exact absurd h hInit
      · exact h
    rw [if_pos hg]
    rfl

/-- The fiscal-federalism outputs dict through the updated model. -/
def ffOutputsDict (m : FiscalFederalismModel) : StateD :=
  [("total_transfers", .num m.totalTransfers),
   ("total_subnational_own_revenue", .num m.totalSubnationalOwnRevenue),
   ("total_subnational_spending", .num m.totalSubnationalSpending),
   ("aggregate_subnational_debt", .num m.aggregateSubnationalDebt)]

theorem ffBody_shape (m : FiscalFederalismModel) (s : StateD) :
    (ffBody m s).1 = ffOutputsDict (ffBody m s).2
      ∧ (ffBody m s).2.initialized = m.initialized := by
  constructor
  · rfl
  · rfl

theorem simulateFiscalFederalism_shape (m : FiscalFederalismModel) (s : StateD)
    {out : StateD} {m' : FiscalFederalismModel}
    (h : simulateFiscalFederalism m s = (some out, m')) :
    out = ffOutputsDict m' ∧ m'.initialized = true := by
  rw [simulateFiscalFederalism] at h
  by_cases hInit : m.initialized = true
  · rw [if_pos hInit] at h
    obtain ⟨h1, h2⟩ := Prod.mk.injEq .. ▸ h
    simp only [Option.some.injEq] at h1
    cases h2
    exact ⟨h1.symm.trans (ffBody_shape m s).1, ((ffBody_shape m s).2).trans hInit⟩
  · rw [if_neg hInit] at h
    by_cases hg : 0 < getNumD (getDictD s "economic_state") "gdp" 0
    · rw [if_pos hg] at h
      obtain ⟨h1, h2⟩ := Prod.mk.injEq .. ▸ h
      simp only [Option.some.injEq] at h1
      cases h2
      refine ⟨h1.symm.trans (ffBody_shape _ s).1, ((ffBody_shape _ s).2).trans ?_⟩
      rfl
    · rw [if_neg hg] at h
      obtain ⟨h1, -⟩ := Prod.mk.injEq .. ▸ h
      exact absurd h1 (by simp)

theorem stepFiscalFederalism_shape (m : FiscalFederalismModel) (s : StateD)
    {s' : StateD} {tr : ℚ} {m' : FiscalFederalismModel}
    (h : stepFiscalFederalism m s = some (s', tr, m')) :
    s' = supdate (setD s "fiscal_federalism_state" (.dict (ffOutputsDict m')))
        (ffOutputsDict m')
      ∧ tr = m'.totalTransfers ∧ m'.initialized = true := by
  rw [stepFiscalFederalism] at h
  rcases hS : simulateFiscalFederalism m s with ⟨o, mm⟩
  rw [hS] at h
  cases o with
  | none => exact absurd h (by simp)
  | some out =>
      obtain ⟨ho, hi⟩ := simulateFiscalFederalism_shape m s hS
      simp only [Option.some.injEq, Prod.mk.injEq] at h
      obtain ⟨h1, h2, h3⟩ := h
      cases h3
      cases ho
      refine ⟨h1.symm, ?_, hi⟩
      rw [← h2]
      rfl

/-- Top-level keys written by the Fiscal-federalism block. -/
def ffKeys : List String :=
  ["fiscal_federalism_state", "total_transfers", "total_subnational_own_revenue",
   "total_subnational_spending", "aggregate_subnational_debt"]

theorem stepFiscalFederalism_frame (m : FiscalFederalismModel) (s : StateD)
    {s' : StateD} {tr : ℚ} {m' : FiscalFederalismModel}
    (h : stepFiscalFederalism m s = some (s', tr, m'))
    {q : String} (hq : q ∉ ffKeys) : lookupD s' q = lookupD s q := by
  obtain ⟨h1, -, -⟩ := stepFiscalFederalism_shape m s h
  simp only [ffKeys, List.mem_cons, List.not_mem_nil, not_or, or_false] at hq
  rw [h1]
  rw [lookupD_supdate_not_mem _ _ (by simp [ffOutputsDict]; tauto)]
  exact lookupD_setD_ne _ hq.1 _

theorem stepFiscalFederalism_isSome (m : FiscalFederalismModel) (s : StateD)
    (h : m.initialized = true ∨ 0 < econGdp s) : (stepFiscalFederalism m s).isSome = true := by
  rw [stepFiscalFederalism, simulateFiscalFederalism]
  by_cases hInit : m.initialized = true
  · rw [if_pos hInit]
    rfl
  · rw [if_neg hInit]
    have hg : 0 < getNumD (getDictD s "economic_state") "gdp" 0 := by
      rcases h with h | h
      · exact absurd h hInit
      · exact h
    rw [if_pos hg]
    rfl

/-- Top-level keys written by the Revenue block. -/
def revKeys : List String := ["revenue_state", "final_revenue"]

theorem stepRevenue_frame (m : RevenueModel) (s : StateD) {q : String}
    (h : q ∉ revKeys) : lookupD (stepRevenue m s).1 q = lookupD s q := by
  simp only [revKeys, List.mem_cons, List.not_mem_nil, not_or, or_false] at h
  rw [stepRevenue]
  rw [lookupD_supdate_not_mem _ _ (by simp [projectRevenue]; tauto)]
  exact lookupD_setD_ne _ h.1 _

theorem writeRevenueForCentralGov_frame (s : StateD) (v : ℚ) {q : String}
    (h : q ≠ "revenue_state") : lookupD (writeRevenueForCentralGov s v) q = lookupD s q := by
  rw [writeRevenueForCentralGov]
  exact lookupD_setD_ne _ h _

/-- Top-level keys written by the Expenditure block. -/
def expKeys : List String := ["expenditure_state", "actual_spending", "expenditure_efficiency"]

theorem stepExpenditure_frame (s : StateD) {q : String}
    (h : q ∉ expKeys) : lookupD (stepExpenditure s).1 q = lookupD s q := by
  simp only [expKeys, List.mem_cons, List.not_mem_nil, not_or, or_false] at h
  rw [stepExpenditure]
  rw [lookupD_supdate_not_mem _ _ (by simp [simulateExpenditure]; tauto)]
  exact lookupD_setD_ne _ h.1 _

/-- Top-level keys written by the SOE block. -/
def soeKeys : List String := ["soe_state", "soe_debt_stock"]

theorem stepSoe_frame (m : SOEModel) (s : StateD) {q : String}
    (h : q ∉ soeKeys) : lookupD (stepSoe m s).1 q = lookupD s q := by
  simp only [soeKeys, List.mem_cons, List.not_mem_nil, not_or, or_false] at h
  rw [stepSoe]
  rw [lookupD_setD_ne _ h.2, lookupD_setD_ne _ h.1]

theorem simulateSoeSector_debt_nonneg (m : SOEModel) (s : StateD) :
    0 ≤ (simulateSoeSector m s).1.2.2 := by
  rw [simulateSoeSector]
  by_cases hInit : m.initialized = true
  · rw [if_pos hInit]
    exact le_max_left _ _
  · rw [if_neg hInit]
    by_cases hg : 0 < getNumD (getDictD s "economic_state") "gdp" 0
    · rw [if_pos hg]
      exact le_max_left _ _
    · rw [if_neg hg]

theorem writeDeficit_frame (s : StateD) (v : ℚ) {q : String}
    (h : q ≠ "deficit") : lookupD (writeDeficit s v) q = lookupD s q := by
  rw [writeDeficit]
  exact lookupD_setD_ne _ h _

/-- Top-level keys written by the Debt block. -/
def debtKeys : List String := ["debt_stock", "dsa_results", "debt_service_calculated"]

theorem stepDebt_frame (m : DebtManagementModel) (s : StateD) (deficit : ℚ) {q : String}
    (h : q ∉ debtKeys) : lookupD (stepDebt m s deficit).1 q = lookupD s q := by
  simp only [debtKeys, List.mem_cons, List.not_mem_nil, not_or, or_false] at h
  rw [stepDebt]
  rw [lookupD_setD_ne _ h.2.2, lookupD_setD_ne _ h.2.1, lookupD_setD_ne _ h.1]

theorem writePrimaryDeficit_frame (s : StateD) (v : ℚ) {q : String}
    (h : q ≠ "primary_deficit") : lookupD (writePrimaryDeficit s v) q = lookupD s q := by
  rw [writePrimaryDeficit]
  exact lookupD_setD_ne _ h _

theorem stepPolicyCoordination_frame (m : PolicyCoordinationModel) (s : StateD) {q : String}
    (h : q ≠ "policy_coordination_state") :
    lookupD (stepPolicyCoordination m s).1 q = lookupD s q := by
  rw [stepPolicyCoordination]
  exact lookupD_setD_ne _ h _

theorem getNumD_eq_of_lookup {s : StateD} {k : String} {q : ℚ}
    (h : lookupD s k = some (.num q)) (d : ℚ) : getNumD s k d = q := by
  unfold getNumD
  rw [h]

theorem getNumOpt_eq_of_lookup {s : StateD} {k : String} {q : ℚ}
    (h : lookupD s k = some (.num q)) : getNumOpt s k = some q := by
  unfold getNumOpt
  rw [h]

theorem getNumOpt_eq_none_of_lookup_none {s : StateD} {k : String}
    (h : lookupD s k = none) : getNumOpt s k = none := by
  unfold getNumOpt
  rw [h]

theorem getDictD_eq_of_lookup {s : StateD} {k : String} {l : StateD}
    (h : lookupD s k = some (.dict l)) : getDictD s k = l := by
  unfold getDictD
  rw [h]

/-- GDP roll-forward of `_update_economic_state`:
`gdp' = gdp * (1 + base_growth * (1 + noise)) * (1 + inflation')` with the
new inflation bounded below by 1%. -/
theorem updateEconomicState_econGdp (cfg : SimConfig) (s : StateD) (e : ℚ) :
    ∃ f : ℚ, econGdp (updateEconomicState cfg s e)
      = econGdp s * (1 + cfg.baseRealGdpGrowth * (1 + e)) * (1 + f) ∧ 0.01 ≤ f := by
  refine ⟨max 0.01 (min 0.15
    (if hasKey (getDictD s "monetary_policy_state") "projected_inflation"
     then getNumD (getDictD s "monetary_policy_state") "projected_inflation" 0
     else getNumD s "inflation" 0 * cfg.inflationPersistence
        + (1 - cfg.inflationPersistence) * cfg.initialInflation)), ?_, le_max_left _ _⟩
  unfold econGdp
  rw [getDictD_eq_of_lookup (s := updateEconomicState cfg s e) (by
    rw [updateEconomicState, lookupD_setD_ne _ (by decide), lookupD_setD_self])]
  rw [getNumD_eq_of_lookup (by
    rw [lookupD_setD_ne _ (by decide), lookupD_setD_ne _ (by decide),
      lookupD_setD_ne _ (by decide), lookupD_setD_self])]

theorem updateEconomicState_gdp_pos (cfg : SimConfig) (s : StateD) (e : ℚ)
    (h0 : 0 < econGdp s) (hA : 0 < 1 + cfg.baseRealGdpGrowth * (1 + e)) :
    0 < econGdp (updateEconomicState cfg s e) := by
  obtain ⟨f, hf, hle⟩ := updateEconomicState_econGdp cfg s e
  rw [hf]
  have : (0 : ℚ) < 1 + f := by linarith
  exact mul_pos (mul_pos h0 hA) this

theorem updateEconomicState_gdp_zero (cfg : SimConfig) (s : StateD) (e : ℚ)
    (h0 : econGdp s = 0) : econGdp (updateEconomicState cfg s e) = 0 := by
  obtain ⟨f, hf, -⟩ := updateEconomicState_econGdp cfg s e
  rw [hf, h0, zero_mul, zero_mul]

/-- Everything the claims need about one successfully completed
`run_single_year` call, packaged as one proposition about its trace. -/
structure RunYearFacts (cfg : SimConfig) (M : Models) (s : StateD) (d : Draws)
    (t : YearTrace) : Prop where
  deficit_eq : t.deficit = t.totalExpenditureIncSoe - t.totalRevenueIncSoe
  totalRevenue_eq : t.totalRevenueIncSoe = t.revenueForCentralGov + t.soeDividends
  revenueForCentral_eq : t.revenueForCentralGov = t.finalRevenue - t.transfersToSubnational
  totalExpenditure_eq : t.totalExpenditureIncSoe = t.realizedCentralSpending + t.soeTransfers
  primary_eq : t.primaryDeficit = t.deficit - t.interestPayments
  interest_eq_zero : t.interestPayments = 0
  entry_eq : t.entry = storeResults t.state
  transfers_eq : t.transfersToSubnational = t.models.fiscalFederalismModel.totalTransfers
  state_deficit : lookupD t.state "deficit" = some (.num t.deficit)
  state_primary : lookupD t.state "primary_deficit" = some (.num t.primaryDeficit)
  state_soeDebt : lookupD t.state "soe_debt_stock" = some (.num t.soeDebt)
  state_debtStock : lookupD t.state "debt_stock" = some (.dict t.debtStockOut)
  state_dsa : lookupD t.state "dsa_results" = some (.dict t.dsaResults)
  state_service : lookupD t.state "debt_service_calculated" = some (.dict t.debtServiceCalculated)
  state_soeState : lookupD t.state "soe_state"
    = some (.dict [("dividends", .num t.soeDividends),
        ("transfers_needed", .num t.soeTransfers), ("debt", .num t.soeDebt)])
  fin_ghost : getNumOpt (getDictD t.state "financial_sector_state")
    "financial_stability_index" = none
  fin_npl : getNumOpt (getDictD t.state "financial_sector_state") "npl_ratio"
    = some t.models.financialSectorModel.nplRatio
  fin_car : getNumOpt (getDictD t.state "financial_sector_state") "capital_adequacy_ratio"
    = some t.models.financialSectorModel.capitalAdequacyRatio
  state_extState : lookupD t.state "external_sector_state"
    = some (.dict (externalOutputsDict t.models.externalSectorModel))
  state_fxReserves : lookupD t.state "fx_reserves"
    = some (.num t.models.externalSectorModel.fxReserves)
  soeDebt_nonneg : 0 ≤ t.soeDebt
  fxReserves_nonneg : 0 ≤ t.models.externalSectorModel.fxReserves
  ext_initialized : t.models.externalSectorModel.initialized = true
  dev_initialized : t.models.devFinanceModel.initialized = true
  ff_initialized : t.models.fiscalFederalismModel.initialized = true
  debtModel_eq : t.models.debtModel
    = updateDebtStock M.debtModel (calculateDebtService M.debtModel) t.deficit
  debtStockOut_eq : t.debtStockOut = debtStockDict t.models.debtModel
  service_eq : t.debtServiceCalculated = calculateDebtService M.debtModel
  dsa_eq : ∃ sdsa, t.dsaResults = performDsa t.models.debtModel sdsa
    ∧ lookupD sdsa "economic_state" = lookupD t.state "economic_state"
    ∧ lookupD sdsa "total_revenue" = lookupD t.state "total_revenue"
  state_econ : lookupD t.state "economic_state"
    = lookupD (updateEconomicState cfg s d.growthNoise) "economic_state"
  npl_shape : ∃ x, t.models.financialSectorModel.nplRatio = max 0.01 x
  car_shape : ∃ x, t.models.financialSectorModel.capitalAdequacyRatio = clamp 0.05 0.25 x
  coord_shape : ∃ x, t.coordScore = clamp 0.1 0.9 x

set_option maxHeartbeats 2000000 in
theorem runYear_facts (cfg : SimConfig) (M : Models) (s : StateD) (d : Draws) (t : YearTrace)
    (h : runYear cfg M s d = some t) : RunYearFacts cfg M s d t := by
  rw [runYear] at h
  split at h
  · exact absurd h (by simp)
  · rename_i ext hE
    split at h
    · exact absurd h (by simp)
    · rename_i dev hD
      dsimp only [] at h
      split at h
      · exact absurd h (by simp)
      · rename_i ff hF
        obtain rfl := Option.some.inj h
        refine
          { deficit_eq := rfl
            totalRevenue_eq := rfl
            revenueForCentral_eq := rfl
            totalExpenditure_eq := rfl
            primary_eq := rfl
            interest_eq_zero := by
              simp [stepDebt, simulateDebtDynamics, calculateDebtService, getNumD, lookupD]
            entry_eq := rfl
            transfers_eq := (stepFiscalFederalism_shape _ _ hF).2.1
            state_deficit := by
              rw [stepPolicyCoordination_frame _ _ (by decide),
                writePrimaryDeficit_frame _ _ (by decide),
                stepDebt_frame _ _ _ (by decide),
                writeDeficit, lookupD_setD_self]
            state_primary := by
              rw [stepPolicyCoordination_frame _ _ (by decide),
                writePrimaryDeficit, lookupD_setD_self]
            state_soeDebt := by
              rw [stepPolicyCoordination_frame _ _ (by decide),
                writePrimaryDeficit_frame _ _ (by decide),
                stepDebt_frame _ _ _ (by decide),
                writeDeficit_frame _ _ (by decide),
                stepSoe, lookupD_setD_self]
            state_soeState := by
              rw [stepPolicyCoordination_frame _ _ (by decide),
                writePrimaryDeficit_frame _ _ (by decide),
                stepDebt_frame _ _ _ (by decide),
                writeDeficit_frame _ _ (by decide),
                stepSoe, lookupD_setD_ne _ (by decide), lookupD_setD_self]
            state_debtStock := by
              rw [stepPolicyCoordination_frame _ _ (by decide),
                writePrimaryDeficit_frame _ _ (by decide),
                stepDebt, lookupD_setD_ne _ (by decide), lookupD_setD_ne _ (by decide),
                lookupD_setD_self]
            state_dsa := by
              rw [stepPolicyCoordination_frame _ _ (by decide),
                writePrimaryDeficit_frame _ _ (by decide),
                stepDebt, lookupD_setD_ne _ (by decide), lookupD_setD_self]
            state_service := by
              rw [stepPolicyCoordination_frame _ _ (by decide),
                writePrimaryDeficit_frame _ _ (by decide),
                stepDebt, lookupD_setD_self]
            fin_ghost := by
              unfold getDictD
              rw [stepPolicyCoordination_frame _ _ (by decide),
                writePrimaryDeficit_frame _ _ (by decide),
                stepDebt_frame _ _ _ (by decide),
                writeDeficit_frame _ _ (by decide),
                stepSoe_frame _ _ (by decide),
                stepExpenditure_frame _ (by decide),
                writeRevenueForCentralGov_frame _ _ (by decide),
                stepFiscalFederalism_frame _ _ hF (by decide),
                stepRevenue_frame _ _ (by decide),
                stepDevFinance_frame _ _ _ hD (by decide),
                stepExternal_frame _ _ _ hE (by decide),
                stepMonetary_frame _ _ (by decide),
                stepFinancial, lookupD_supdate_not_mem _ _ (by simp [simulateFinancialSystem]),
                lookupD_setD_self]
              simp [simulateFinancialSystem, getNumOpt, lookupD]
            fin_npl := by
              unfold getDictD
              rw [stepPolicyCoordination_frame _ _ (by decide),
                writePrimaryDeficit_frame _ _ (by decide),
                stepDebt_frame _ _ _ (by decide),
                writeDeficit_frame _ _ (by decide),
                stepSoe_frame _ _ (by decide),
                stepExpenditure_frame _ (by decide),
                writeRevenueForCentralGov_frame _ _ (by decide),
                stepFiscalFederalism_frame _ _ hF (by decide),
                stepRevenue_frame _ _ (by decide),
                stepDevFinance_frame _ _ _ hD (by decide),
                stepExternal_frame _ _ _ hE (by decide),
                stepMonetary_frame _ _ (by decide),
                stepFinancial, lookupD_supdate_not_mem _ _ (by simp [simulateFinancialSystem]),
                lookupD_setD_self]
              simp [simulateFinancialSystem, getNumOpt, lookupD]
            fin_car := by
              unfold getDictD
              rw [stepPolicyCoordination_frame _ _ (by decide),
                writePrimaryDeficit_frame _ _ (by decide),
                stepDebt_frame _ _ _ (by decide),
                writeDeficit_frame _ _ (by decide),
                stepSoe_frame _ _ (by decide),
                stepExpenditure_frame _ (by decide),
                writeRevenueForCentralGov_frame _ _ (by decide),
                stepFiscalFederalism_frame _ _ hF (by decide),
                stepRevenue_frame _ _ (by decide),
                stepDevFinance_frame _ _ _ hD (by decide),
                stepExternal_frame _ _ _ hE (by decide),
                stepMonetary_frame _ _ (by decide),
                stepFinancial, lookupD_supdate_not_mem _ _ (by simp [simulateFinancialSystem]),
                lookupD_setD_self]
              simp [simulateFinancialSystem, getNumOpt, lookupD]
            state_extState := by
              rw [stepPolicyCoordination_frame _ _ (by decide),
                writePrimaryDeficit_frame _ _ (by decide),
                stepDebt_frame _ _ _ (by decide),
                writeDeficit_frame _ _ (by decide),
                stepSoe_frame _ _ (by decide),
                stepExpenditure_frame _ (by decide),
                writeRevenueForCentralGov_frame _ _ (by decide),
                stepFiscalFederalism_frame _ _ hF (by decide),
                stepRevenue_frame _ _ (by decide),
                stepDevFinance_frame _ _ _ hD (by decide),
                (stepExternal_shape _ _ _ hE).1,
                lookupD_supdate_not_mem _ _ (by simp [externalOutputsDict]),
                lookupD_setD_self]
            state_fxReserves := by
              rw [stepPolicyCoordination_frame _ _ (by decide),
                writePrimaryDeficit_frame _ _ (by decide),
                stepDebt_frame _ _ _ (by decide),
                writeDeficit_frame _ _ (by decide),
                stepSoe_frame _ _ (by decide),
                stepExpenditure_frame _ (by decide),
                writeRevenueForCentralGov_frame _ _ (by decide),
                stepFiscalFederalism_frame _ _ hF (by decide),
                stepRevenue_frame _ _ (by decide),
                stepDevFinance_frame _ _ _ hD (by decide),
                (stepExternal_shape _ _ _ hE).1]
              simp only [externalOutputsDict, supdate_cons, supdate_nil]
              rw [lookupD_setD_ne _ (by decide), lookupD_setD_self]
            soeDebt_nonneg := simulateSoeSector_debt_nonneg _ _
            fxReserves_nonneg := (stepExternal_shape _ _ _ hE).2.2
            ext_initialized := (stepExternal_shape _ _ _ hE).2.1
            dev_initialized := (stepDevFinance_shape _ _ _ hD).2
            ff_initialized := (stepFiscalFederalism_shape _ _ hF).2.2
            debtModel_eq := rfl
            debtStockOut_eq := rfl
            service_eq := rfl
            dsa_eq := by
              refine ⟨_, rfl, ?_, ?_⟩
              · rw [lookupD_setD_ne _ (by decide), lookupD_setD_ne _ (by decide),
                  stepPolicyCoordination_frame _ _ (by decide),
                  writePrimaryDeficit_frame _ _ (by decide),
                  stepDebt_frame _ _ _ (by decide)]
              · rw [lookupD_setD_ne _ (by decide), lookupD_setD_ne _ (by decide),
                  stepPolicyCoordination_frame _ _ (by decide),
                  writePrimaryDeficit_frame _ _ (by decide),
                  stepDebt_frame _ _ _ (by decide)]
            state_econ := by
              rw [stepPolicyCoordination_frame _ _ (by decide),
                writePrimaryDeficit_frame _ _ (by decide),
                stepDebt_frame _ _ _ (by decide),
                writeDeficit_frame _ _ (by decide),
                stepSoe_frame _ _ (by decide),
                stepExpenditure_frame _ (by decide),
                writeRevenueForCentralGov_frame _ _ (by decide),
                stepFiscalFederalism_frame _ _ hF (by decide),
                stepRevenue_frame _ _ (by decide),
                stepDevFinance_frame _ _ _ hD (by decide),
                stepExternal_frame _ _ _ hE (by decide),
                stepMonetary_frame _ _ (by decide),
                stepFinancial_frame _ _ (by decide),
                stepSupervision_frame _ _ (by decide),
                stepGovernance_frame _ _ (by decide)]
            npl_shape := ⟨_, rfl⟩
            car_shape := ⟨_, rfl⟩
            coord_shape := ⟨_, rfl⟩ }

theorem econGdp_congr {s s' : StateD}
    (h : lookupD s "economic_state" = lookupD s' "economic_state") : econGdp s = econGdp s' := by
  unfold econGdp
  rw [getDictD_congr h]

theorem getDictD_eq_nil_of_lookup_none {s : StateD} {k : String}
    (h : lookupD s k = none) : getDictD s k = [] := by
  unfold getDictD
  rw [h]

/-- Every top-level shared-state key written during one `run_single_year`. -/
def yearKeys : List String :=
  econKeys ++ govKeys ++ supKeys ++ finKeys ++ mpKeys ++ extKeys ++ devKeys ++ revKeys
    ++ ffKeys ++ expKeys ++ soeKeys ++ ["deficit"] ++ debtKeys
    ++ ["primary_deficit", "policy_coordination_state"]

/-- A completed year leaves every top-level key outside `yearKeys` exactly
as it was: the orchestrator's promotion is additive. -/
theorem runYear_frame (cfg : SimConfig) (M : Models) (s : StateD) (d : Draws)
    (t : YearTrace) (h : runYear cfg M s d = some t) {q : String}
    (hq : q ∉ yearKeys) : lookupD t.state q = lookupD s q := by
  simp only [yearKeys, List.append_assoc, List.mem_append, not_or] at hq
  obtain ⟨h1, h2, h3, h4, h5, h6, h7, h8, h9, h10, h11, h12, h13, h14⟩ := hq
  have h12' : q ≠ "deficit" := by
    intro he
    exact h12 (by simp [he])
  have h14a : q ≠ "primary_deficit" := by
    intro he
    exact h14 (by simp [he])
  have h14b : q ≠ "policy_coordination_state" := by
    intro he
    exact h14 (by simp [he])
  have h8' : q ≠ "revenue_state" := by
    intro he
    exact h8 (by simp [revKeys, he])
  rw [runYear] at h
  split at h
  · exact absurd h (by simp)
  · rename_i ext hE
    split at h
    · exact absurd h (by simp)
    · rename_i dev hD
      dsimp only [] at h
      split at h
      · exact absurd h (by simp)
      · rename_i ff hF
        obtain rfl := Option.some.inj h
        rw [stepPolicyCoordination_frame _ _ h14b,
          writePrimaryDeficit_frame _ _ h14a,
          stepDebt_frame _ _ _ h13,
          writeDeficit_frame _ _ h12',
          stepSoe_frame _ _ h11,
          stepExpenditure_frame _ h10,
          writeRevenueForCentralGov_frame _ _ h8',
          stepFiscalFederalism_frame _ _ hF h9,
          stepRevenue_frame _ _ h8,
          stepDevFinance_frame _ _ _ hD h7,
          stepExternal_frame _ _ _ hE h6,
          stepMonetary_frame _ _ h5,
          stepFinancial_frame _ _ h4,
          stepSupervision_frame _ _ h3,
          stepGovernance_frame _ _ h2,
          updateEconomicState_frame _ _ _ h1]

/-- `run_single_year` completes (raises nothing) as soon as each
lazily-initialized sector is already active or the year's GDP is positive. -/
theorem runYear_isSome (cfg : SimConfig) (M : Models) (s : StateD) (d : Draws)
    (hext : M.externalSectorModel.initialized = true
      ∨ 0 < econGdp (updateEconomicState cfg s d.growthNoise))
    (hdev : M.devFinanceModel.initialized = true
      ∨ 0 < econGdp (updateEconomicState cfg s d.growthNoise))
    (hff : M.fiscalFederalismModel.initialized = true
      ∨ 0 < econGdp (updateEconomicState cfg s d.growthNoise)) :
    (runYear cfg M s d).isSome = true := by
  rw [runYear]
  dsimp only []
  have hg4 : econGdp (stepMonetary M.monetaryPolicyModel (stepFinancial M.financialSectorModel
      (stepSupervision M.supervisionModel (stepGovernance M.governanceModel
        (updateEconomicState cfg s d.growthNoise)).1).1).1).1
      = econGdp (updateEconomicState cfg s d.growthNoise) := by
    rw [econGdp_congr (stepMonetary_frame _ _ (by decide)),
      econGdp_congr (stepFinancial_frame _ _ (by decide)),
      econGdp_congr (stepSupervision_frame _ _ (by decide)),
      econGdp_congr (stepGovernance_frame _ _ (by decide))]
  obtain ⟨ext, hE⟩ := Option.isSome_iff_exists.mp (stepExternal_isSome _ _ d.extGlobalFactor
    (by
      rcases hext with hx | hx
      · exact Or.inl hx
      · exact Or.inr (by rw [hg4]; exact hx)))
  rw [hE]
  dsimp only []
  have hg5 : econGdp ext.1 = econGdp (updateEconomicState cfg s d.growthNoise) :=
    (econGdp_congr (stepExternal_frame _ _ _ hE (by decide))).trans hg4
  obtain ⟨dev, hD⟩ := Option.isSome_iff_exists.mp (stepDevFinance_isSome _ _ d.aidGlobalFactor
    (by
      rcases hdev with hx | hx
      · exact Or.inl hx
      · exact Or.inr (by rw [hg5]; exact hx)))
  rw [hD]
  dsimp only []
  have hg7 : econGdp (stepRevenue M.revenueModel dev.1).1
      = econGdp (updateEconomicState cfg s d.growthNoise) :=
    (econGdp_congr (stepRevenue_frame _ _ (by decide))).trans
      ((econGdp_congr (stepDevFinance_frame _ _ _ hD (by decide))).trans hg5)
  obtain ⟨ff, hFf⟩ := Option.isSome_iff_exists.mp (stepFiscalFederalism_isSome _ _
    (by
      rcases hff with hx | hx
      · exact Or.inl hx
      · exact Or.inr (by rw [hg7]; exact hx)))
  rw [hFf]
  rfl

/-- `econGdp` of the freshly-initialized shared state is the configured
initial GDP. -/
theorem econGdp_initState (cfg : SimConfig) : econGdp (initState cfg) = cfg.initialGdp := rfl

/-- With the three lazily-initialized sector models already active, the
year loop completes every requested year, appending exactly one ledger row
per year in the order requested. -/
theorem runYears_keys (cfg : SimConfig) (ds : ℕ → Draws) (M : Models) (s : StateD)
    (ys : List ℕ)
    (hM : M.externalSectorModel.initialized = true ∧ M.devFinanceModel.initialized = true
      ∧ M.fiscalFederalismModel.initialized = true) :
    (runYears cfg ds M s ys).map Prod.fst = ys := by
  induction ys generalizing M s with
  | nil => rfl
  | cons y ys ih =>
      rw [runYears]
      obtain ⟨t, ht⟩ := Option.isSome_iff_exists.mp (runYear_isSome cfg M s (ds y)
        (Or.inl hM.1) (Or.inl hM.2.1) (Or.inl hM.2.2))
      rw [ht]
      have f := runYear_facts cfg M s (ds y) t ht
      simp only [List.map_cons, List.cons.injEq, true_and]
      exact ih t.models t.state ⟨f.ext_initialized, f.dev_initialized, f.ff_initialized⟩

/-- A full run from the initial state produces one ledger row per
configured year: the year-1 GDP is positive (initial GDP positive and the
noisy growth factor above -100%), so every lazily-initialized sector
activates in year one and no year aborts. -/
theorem runSimulation_keys (cfg : SimConfig) (M : Models) (ds : ℕ → Draws)
    (hgdp : 0 < cfg.initialGdp)
    (hA : 0 < 1 + cfg.baseRealGdpGrowth * (1 + (ds cfg.startYear).growthNoise))
    (hse : cfg.startYear ≤ cfg.endYear) :
    (runSimulation cfg M ds).map Prod.fst = simYears cfg := by
  rw [runSimulation, simYears]
  have hn : cfg.endYear + 1 - cfg.startYear = (cfg.endYear - cfg.startYear) + 1 := by omega
  rw [hn, List.range'_succ]
  have hpos : 0 < econGdp (updateEconomicState cfg (initState cfg)
      (ds cfg.startYear).growthNoise) :=
    updateEconomicState_gdp_pos cfg (initState cfg) _
      (by rw [econGdp_initState]; exact hgdp) hA
  rw [runYears]
  obtain ⟨t, ht⟩ := Option.isSome_iff_exists.mp (runYear_isSome cfg M (initState cfg)
    (ds cfg.startYear) (Or.inr hpos) (Or.inr hpos) (Or.inr hpos))
  rw [ht]
  have f := runYear_facts cfg M (initState cfg) (ds cfg.startYear) t ht
  simp only [List.map_cons, List.cons.injEq, true_and]
  rw [runYears_keys cfg ds t.models t.state _
    ⟨f.ext_initialized, f.dev_initialized, f.ff_initialized⟩]

/-- Top-level state keys `_store_results` reads that no sector or
aggregate step ever writes. -/
def ghostTopKeys : List String :=
  ["total_revenue", "central_revenue", "total_expenditure", "central_expenditure",
   "policy_coordination_score", "development_finance_state", "expenditure_outputs"]

/-- The thirteen Result Ledger fields that always hold the missing marker. -/
def EntryGhost (e : Entry) : Prop :=
  e.totalRevenue = none ∧ e.centralRevenue = none ∧ e.totalExpenditure = none
    ∧ e.centralExpenditure = none ∧ e.financialStabilityIndex = none
    ∧ e.fxReservesMonths = none ∧ e.interestPayments = none
    ∧ e.dsaServiceRevenueRatio = none ∧ e.soePerformance = none
    ∧ e.grantReceipts = none ∧ e.dfiLending = none
    ∧ e.expenditureEfficiency = none ∧ e.policyCoordinationScore = none

theorem runYear_entry_ghost (cfg : SimConfig) (M : Models) (s : StateD) (d : Draws)
    (t : YearTrace) (h : runYear cfg M s d = some t)
    (hs : ∀ q ∈ ghostTopKeys, lookupD s q = none) :
    EntryGhost t.entry ∧ ∀ q ∈ ghostTopKeys, lookupD t.state q = none := by
  have f := runYear_facts cfg M s d t h
  have hfr : ∀ q ∈ ghostTopKeys, lookupD t.state q = none := by
    intro q hq
    rw [runYear_frame cfg M s d t h ?_]
    · exact hs q hq
    · fin_cases hq <;> decide
  refine ⟨?_, hfr⟩
  rw [f.entry_eq]
  refine ⟨?_, ?_, ?_, ?_, ?_, ?_, ?_, ?_, ?_, ?_, ?_, ?_, ?_⟩
  · exact getNumOpt_eq_none_of_lookup_none (hfr _ (by simp [ghostTopKeys]))
  · exact getNumOpt_eq_none_of_lookup_none (hfr _ (by simp [ghostTopKeys]))
  · exact getNumOpt_eq_none_of_lookup_none (hfr _ (by simp [ghostTopKeys]))
  · exact getNumOpt_eq_none_of_lookup_none (hfr _ (by simp [ghostTopKeys]))
  · exact f.fin_ghost
  · show getNumOpt (getDictD t.state "external_sector_state") "reserves_months_imp" = none
    rw [getDictD_eq_of_lookup f.state_extState]
    simp [externalOutputsDict, getNumOpt, lookupD]
  · show getNumOpt (getDictD t.state "debt_service_calculated") "total_interest_paid" = none
    rw [getDictD_eq_of_lookup f.state_service, f.service_eq]
    simp [calculateDebtService, getNumOpt, lookupD]
  · show getNumOpt (getDictD t.state "dsa_results") "service_to_revenue" = none
    rw [getDictD_eq_of_lookup f.state_dsa]
    obtain ⟨sdsa, hdsa, -, -⟩ := f.dsa_eq
    rw [hdsa]
    simp [performDsa, getNumOpt, lookupD]
  · show getNumOpt (getDictD t.state "soe_state") "performance_index" = none
    rw [getDictD_eq_of_lookup f.state_soeState]
    simp [getNumOpt, lookupD]
  · show getNumOpt (getDictD t.state "development_finance_state") "grants" = none
    rw [getDictD_eq_nil_of_lookup_none (hfr _ (by simp [ghostTopKeys]))]
    rfl
  · show getNumOpt (getDictD t.state "development_finance_state") "dfi_net_lending" = none
    rw [getDictD_eq_nil_of_lookup_none (hfr _ (by simp [ghostTopKeys]))]
    rfl
  · show getNumOpt (getDictD t.state "expenditure_outputs") "expenditure_efficiency" = none
    rw [getDictD_eq_nil_of_lookup_none (hfr _ (by simp [ghostTopKeys]))]
    rfl
  · exact getNumOpt_eq_none_of_lookup_none (hfr _ (by simp [ghostTopKeys]))

theorem runYears_entries_ghost (cfg : SimConfig) (ds : ℕ → Draws) (M : Models) (s : StateD)
    (ys : List ℕ) (hs : ∀ q ∈ ghostTopKeys, lookupD s q = none) :
    ∀ p ∈ runYears cfg ds M s ys, EntryGhost p.2 := by
  induction ys generalizing M s with
  | nil =>
      intro p hp
      simp [runYears] at hp
  | cons y ys ih =>
      intro p hp
      rw [runYears] at hp
      rcases hR : runYear cfg M s (ds y) with - | t
      · rw [hR] at hp
        simp at hp
      · rw [hR] at hp
        obtain ⟨hg, hfr⟩ := runYear_entry_ghost cfg M s (ds y) t hR hs
        rcases List.mem_cons.mp hp with he | hm
        · rw [he]
          exact hg
        · exact ih t.models t.state hfr p hm

/-- The initial shared state holds none of the ghost keys. -/
theorem initState_ghost (cfg : SimConfig) :
    ∀ q ∈ ghostTopKeys, lookupD (initState cfg) q = none := by
  intro q hq
  fin_cases hq <;> rfl

/-- After `_update_economic_state` the `gdp` key is present, so reads of it
are default-independent. -/
theorem updateEconomicState_gdp_read (cfg : SimConfig) (s : StateD) (e : ℚ) (dflt : ℚ) :
    getNumD (getDictD (updateEconomicState cfg s e) "economic_state") "gdp" dflt
      = econGdp (updateEconomicState cfg s e) := by
  unfold econGdp updateEconomicState getDictD getNumD
  rw [lookupD_setD_ne _ (by decide), lookupD_setD_self]
  dsimp only []
  rw [lookupD_setD_ne _ (by decide), lookupD_setD_ne _ (by decide),
    lookupD_setD_ne _ (by decide), lookupD_setD_self]

/-- `_update_debt_stock` with a zero prior stock: the principal repayments
and interest vanish and the whole deficit becomes the new total. -/
theorem updateDebtStock_zero_total (m : DebtManagementModel) (d : ℚ)
    (h1 : m.debtDomestic = 0) (h2 : m.debtExternal = 0) (h3 : m.debtTotal = 0) :
    (updateDebtStock m (calculateDebtService m) d).debtTotal = d
      ∧ getNumD (calculateDebtService m) "total_interest" 0 = 0
      ∧ getNumD (calculateDebtService m) "total_principal" 0 = 0 := by
  refine ⟨?_, ?_, ?_⟩
  · simp only [updateDebtStock, calculateDebtService, h1, h2, h3]
    norm_num [getNumD, lookupD]
    ring
  · simp only [calculateDebtService, h1, h2]
    norm_num [getNumD, lookupD]
  · simp only [calculateDebtService, h1, h2]
    norm_num [getNumD, lookupD]

/-- When the year's GDP is zero, `_perform_dsa` substitutes a denominator
of 1, so the DSA debt-to-GDP ratio stored in the ledger is the raw
debt-stock total, a number, not the missing marker. -/
theorem runYear_dsa_gdp_zero (cfg : SimConfig) (M : Models) (s : StateD) (d : Draws)
    (t : YearTrace) (h : runYear cfg M s d = some t) (hg : econGdp s = 0) :
    t.entry.dsaDebtGdpRatio = some t.models.debtModel.debtTotal := by
  have f := runYear_facts cfg M s d t h
  have hup : econGdp (updateEconomicState cfg s d.growthNoise) = 0 :=
    updateEconomicState_gdp_zero cfg s d.growthNoise hg
  obtain ⟨sdsa, hdsa, hecon, -⟩ := f.dsa_eq
  rw [f.entry_eq]
  show getNumOpt (getDictD t.state "dsa_results") "debt_to_gdp" = _
  rw [getDictD_eq_of_lookup f.state_dsa, hdsa]
  have hgdp0 : getNumD (getDictD sdsa "economic_state") "gdp" 1 = 0 := by
    rw [getDictD_congr (hecon.trans f.state_econ)]
    rw [updateEconomicState_gdp_read cfg s d.growthNoise 1]
    exact hup
  rw [performDsa, hgdp0]
  norm_num [getNumOpt, lookupD]

/-- All the `x / gdp if gdp else nan` ledger ratios are the missing marker
when the stored GDP is zero. -/
theorem storeResults_gdp_zero (st : StateD)
    (hz : getNumD (getDictD st "economic_state") "gdp" 0 = 0) :
    (storeResults st).revenueGdp = none ∧ (storeResults st).expenditureGdp = none
      ∧ (storeResults st).overallDeficitGdp = none
      ∧ (storeResults st).primaryDeficitGdp = none
      ∧ (storeResults st).debtStockGdp = none ∧ (storeResults st).soeDebtGdp = none := by
  simp only [storeResults, hz]
  norm_num

/-! ## Concrete test fixtures

`cfgW`/`MW` mirror a configuration built with the source's documented
defaults, the scenario values `initial_gdp = 1000`, a zero initial debt
stock, a zero initial NPL ratio and `start_year = end_year = 2025`; the
models of `MW` are freshly constructed (lazy stocks not yet initialized).
`MA` is the same set of models after their lazy initialization (stocks
active), with a debt stock of 100 held domestically. `cfgZ` forces the
economy's GDP to zero. `dW` fixes the three random draws. -/

def cfgW : SimConfig :=
  { startYear := 2025, endYear := 2025, initialGdp := 1000, initialGdpGrowth := 0.06,
    baseRealGdpGrowth := 0.05, initialInflation := 0.05, inflationPersistence := 0.8,
    initialDebtGdpRatio := 0, initialNplRatio := 0 }

def cfgZ : SimConfig :=
  { startYear := 2025, endYear := 2025, initialGdp := 0, initialGdpGrowth := 0.06,
    baseRealGdpGrowth := 0.05, initialInflation := 0.05, inflationPersistence := 0.8,
    initialDebtGdpRatio := 0, initialNplRatio := 0 }

def dW : Draws := { growthNoise := 0, extGlobalFactor := 1, aidGlobalFactor := 1 }

def MW : Models :=
  { governanceModel :=
      { pfmReformLevel := 0.4, nbrCapacityLevel := 0.5, centralBankCapacity := 0.6,
        antiCorruptionEffectiveness := 0.3, accountabilityScore := 0.4,
        pfmImprovementRate := 0.015, nbrImprovementRate := 0.01, cbImprovementRate := 0.005,
        acImprovementRate := 0.008, accountabilityImprovementRate := 0.012,
        wPfm := 0.25, wNbr := 0.20, wCb := 0.15, wAc := 0.20, wAccountability := 0.20 }
    supervisionModel :=
      { currentEffectiveness := 0.6, cbCapacityWeight := 0.5, financialStabilityWeight := 0.3,
        regulatoryReformImpact := 0.01 }
    financialSectorModel :=
      { nplRatio := 0, capitalAdequacyRatio := 0.12, requiredCar := 0.10,
        nplGdpSensitivity := -0.5, nplSupervisionSensitivity := -0.2 }
    monetaryPolicyModel :=
      { targetInflationLo := 0.04, targetInflationHi := 0.06, policyRate := 0.06,
        inflationGapWeight := 1.5, policyTransmissionLag := 0.1 }
    externalSectorModel :=
      { initialExportGdp := 0.15, initialImportGdp := 0.22, initialRemittanceGdp := 0.05,
        initialFdiGdp := 0.01, initialReservesMonthsImport := 5,
        exportGlobalGrowthSensitivity := 1.5, importDomesticGrowthSensitivity := 1.2,
        remittanceGlobalGrowthSensitivity := 0.8, fdiGovernanceSensitivity := 0.05,
        exports := 0, imports := 0, remittances := 0, fdi := 0,
        currentAccountBalance := 0, financialAccountBalance := 0, overallBop := 0,
        fxReserves := 0, initialized := false }
    devFinanceModel :=
      { initialGrantAidGdp := 0.008, initialDfiNetLendingGdp := 0.015,
        grantGlobalFactorSensitivity := 0.5, dfiLendingGovernanceSensitivity := 0.3,
        absorptionCapacitySensitivity := 0.4, grantAid := 0, dfiNetLending := 0,
        initialized := false }
    revenueModel :=
      { vatRate := 0.15, avgIncomeTaxRate := 0.10, avgCorpTaxRate := 0.25, avgTradeTax := 0.05,
        currentComplianceRate := 0.6, currentAdminEfficiency := 0.7, formalSectorShare := 0.7 }
    fiscalFederalismModel :=
      { transferRatioCentralRevenue := 0.10, initialSubnationalRevenueGdp := 0.005,
        subnationalRevenueCapacityGrowth := 0.01, subnationalSpendingEfficiency := 0.8,
        subnationalDebtLimitGdp := 0.02, subnationalRevenueCapacityIndex := 1,
        totalTransfers := 0, totalSubnationalOwnRevenue := 0, totalSubnationalSpending := 0,
        aggregateSubnationalDebt := 0, initialized := false }
    soeModel :=
      { initialSoePerformance := 0.4, initialSoeDebtGdp := 0.10, gdpGrowthSensitivity := 0.3,
        governanceSensitivity := 0.2, debtDragFactor := -0.1, dividendPayoutRatio := 0.2,
        transferNeedThreshold := 0.3, transferScaleFactor := 0.01,
        performanceIndex := 0.4, soeDebtStock := 0, initialized := false }
    debtModel :=
      { debtDomestic := 0, debtExternal := 0, debtTotal := 0,
        avgInterestRateDomestic := 0.08, avgInterestRateExternal := 0.03,
        dsaThresholdDebtToGdp := 0.70 }
    policyCoordModel :=
      { baseCoordinationScore := 0.6, conflictThresholdInflation := 0.08,
        conflictThresholdDeficit := 0.05, conflictImpact := -0.1, institutionalImpact := 0.05,
        currentCoordinationScore := 0.6 } }

def MA : Models :=
  { MW with
    externalSectorModel :=
      { MW.externalSectorModel with
        exports := 150, imports := 220, remittances := 50, fdi := 10,
        fxReserves := 90, initialized := true }
    devFinanceModel :=
      { MW.devFinanceModel with grantAid := 8, dfiNetLending := 15, initialized := true }
    fiscalFederalismModel :=
      { MW.fiscalFederalismModel with
        totalSubnationalOwnRevenue := 5, aggregateSubnationalDebt := 10, initialized := true }
    soeModel := { MW.soeModel with soeDebtStock := 100, initialized := true }
    debtModel :=
      { debtDomestic := 100, debtExternal := 0, debtTotal := 100,
        avgInterestRateDomestic := 0.08, avgInterestRateExternal := 0.03,
        dsaThresholdDebtToGdp := 0.70 } }

/-! ## The claims -/

/-- C1: for every simulated year the orchestrator's fiscal aggregates
satisfy exactly `total_revenue = revenue_for_central_gov + soe_dividends`
with `revenue_for_central_gov = final_revenue - transfers_to_subnational`
(the Revenue model's `final_revenue` minus the FiscalFederalism model's
`total_transfers`), `total_expenditure = realized_central_spending +
soe_transfers_needed`, and the deficit written into shared state (and into
the ledger's `Overall_Deficit`) equals
`total_expenditure - total_revenue`. -/
theorem claim_C1 (cfg : SimConfig) (M : Models) (s : StateD) (d : Draws) (t : YearTrace)
    (h : runYear cfg M s d = some t) :
    t.totalRevenueIncSoe = t.revenueForCentralGov + t.soeDividends
      ∧ t.revenueForCentralGov = t.finalRevenue - t.transfersToSubnational
      ∧ t.transfersToSubnational = t.models.fiscalFederalismModel.totalTransfers
      ∧ t.totalExpenditureIncSoe = t.realizedCentralSpending + t.soeTransfers
      ∧ t.deficit = t.totalExpenditureIncSoe - t.totalRevenueIncSoe
      ∧ lookupD t.state "deficit" = some (.num t.deficit)
      ∧ t.entry.overallDeficit = some t.deficit := by
  have f := runYear_facts cfg M s d t h
  refine ⟨f.totalRevenue_eq, f.revenueForCentral_eq, f.transfers_eq, f.totalExpenditure_eq,
    f.deficit_eq, f.state_deficit, ?_⟩
  rw [f.entry_eq]
  exact getNumOpt_eq_of_lookup f.state_deficit

theorem claim_C1_witness :
    ∃ t, runYear cfgW MA (initState cfgW) dW = some t
      ∧ (t.totalRevenueIncSoe = t.revenueForCentralGov + t.soeDividends
        ∧ t.revenueForCentralGov = t.finalRevenue - t.transfersToSubnational
        ∧ t.transfersToSubnational = t.models.fiscalFederalismModel.totalTransfers
        ∧ t.totalExpenditureIncSoe = t.realizedCentralSpending + t.soeTransfers
        ∧ t.deficit = t.totalExpenditureIncSoe - t.totalRevenueIncSoe
        ∧ lookupD t.state "deficit" = some (.num t.deficit)
        ∧ t.entry.overallDeficit = some t.deficit) := by
  obtain ⟨t, ht⟩ := Option.isSome_iff_exists.mp (runYear_isSome cfgW MA (initState cfgW) dW
    (Or.inl rfl) (Or.inl rfl) (Or.inl rfl))
  exact ⟨t, ht, claim_C1 cfgW MA (initState cfgW) dW t ht⟩

/-- C2 (code-bug evidence): the Debt model's debt-service dict carries the
year's interest under the key `total_interest` (here 8, from a domestic
stock of 100 at 8% and no external debt), and has no key
`total_interest_paid`; `run_single_year` reads the latter with default 0,
so the interest payments it uses are always 0 and the primary deficit it
stores always equals the deficit itself, not deficit minus interest. -/
theorem claim_C2_bug :
    getNumOpt (calculateDebtService MA.debtModel) "total_interest" = some 8
      ∧ getNumOpt (calculateDebtService MA.debtModel) "total_interest_paid" = none
      ∧ ∃ t, runYear cfgW MA (initState cfgW) dW = some t
          ∧ t.interestPayments = 0 ∧ t.primaryDeficit = t.deficit
          ∧ lookupD t.state "primary_deficit" = some (.num t.deficit) := by
  refine ⟨?_, ?_, ?_⟩
  · simp +decide only [calculateDebtService, MA, MW, getNumOpt, lookupD]
    norm_num
  · simp +decide only [calculateDebtService, getNumOpt, lookupD]
  · obtain ⟨t, ht⟩ := Option.isSome_iff_exists.mp (runYear_isSome cfgW MA (initState cfgW) dW
      (Or.inl rfl) (Or.inl rfl) (Or.inl rfl))
    have f := runYear_facts cfgW MA (initState cfgW) dW t ht
    have hp : t.primaryDeficit = t.deficit := by
      rw [f.primary_eq, f.interest_eq_zero, sub_zero]
    exact ⟨t, ht, f.interest_eq_zero, hp, by rw [← hp]; exact f.state_primary⟩

/-- C3 (counterexample): `_update_debt_stock` applies no zero floor. With
a prior stock of 100 held domestically and deficit financing -200 (a large
surplus), the updated domestic and total central-government debt stocks
are -105, not 0. -/
theorem claim_C3_counterexample :
    (updateDebtStock MA.debtModel (calculateDebtService MA.debtModel) (-200)).debtDomestic < 0
      ∧ (updateDebtStock MA.debtModel (calculateDebtService MA.debtModel) (-200)).debtTotal
          < 0 := by
  constructor <;>
    · simp +decide only [updateDebtStock, calculateDebtService, MA, MW, getNumD, lookupD]
      norm_num

/-- C3 (amended): the SOE debt stock and the FX reserves are floored at
zero by their updates (`_update_soe_debt`, `_update_reserves`) and are
recorded non-negative in every completed year's shared state; the
central-government debt stock update, however, applies no floor (see the
counterexample), so only those two stocks carry the guarantee. -/
theorem claim_C3 :
    (∀ (m : SOEModel) (tr dv : ℚ), 0 ≤ (soeUpdateDebt m tr dv).soeDebtStock)
      ∧ (∀ m : ExternalSectorModel, 0 ≤ (externalUpdateReserves m).2.fxReserves)
      ∧ ∀ (cfg : SimConfig) (M : Models) (s : StateD) (d : Draws) (t : YearTrace),
          runYear cfg M s d = some t →
            lookupD t.state "soe_debt_stock" = some (.num t.soeDebt) ∧ 0 ≤ t.soeDebt
              ∧ lookupD t.state "fx_reserves"
                  = some (.num t.models.externalSectorModel.fxReserves)
              ∧ 0 ≤ t.models.externalSectorModel.fxReserves := by
  refine ⟨fun m tr dv => le_max_left _ _, fun m => le_max_left _ _, ?_⟩
  intro cfg M s d t h
  have f := runYear_facts cfg M s d t h
  exact ⟨f.state_soeDebt, f.soeDebt_nonneg, f.state_fxReserves, f.fxReserves_nonneg⟩

theorem claim_C3_witness :
    0 ≤ (soeUpdateDebt MA.soeModel 0 0).soeDebtStock
      ∧ 0 ≤ (externalUpdateReserves MA.externalSectorModel).2.fxReserves
      ∧ ∃ t, runYear cfgW MA (initState cfgW) dW = some t
          ∧ (lookupD t.state "soe_debt_stock" = some (.num t.soeDebt) ∧ 0 ≤ t.soeDebt
            ∧ lookupD t.state "fx_reserves"
                = some (.num t.models.externalSectorModel.fxReserves)
            ∧ 0 ≤ t.models.externalSectorModel.fxReserves) := by
  obtain ⟨t, ht⟩ := Option.isSome_iff_exists.mp (runYear_isSome cfgW MA (initState cfgW) dW
    (Or.inl rfl) (Or.inl rfl) (Or.inl rfl))
  exact ⟨claim_C3.1 MA.soeModel 0 0, claim_C3.2.1 MA.externalSectorModel,
    t, ht, claim_C3.2.2 cfgW MA (initState cfgW) dW t ht⟩

/-- C4: in every run, every Result Ledger entry holds the missing marker
in the thirteen fields `Total_Revenue`, `Central_Revenue`,
`Total_Expenditure`, `Central_Expenditure`, `Financial_Stability_Index`,
`FX_Reserves_Months`, `Interest_Payments`, `DSA_Service_Revenue_Ratio`,
`SOE_Performance`, `Grant_Receipts`, `DFI_Lending`,
`Expenditure_Efficiency` and `Policy_Coordination_Score`: the snapshot
reads state keys (or sub-dict keys) that no sector or aggregate step ever
writes under those names. -/
theorem claim_C4 (cfg : SimConfig) (M : Models) (ds : ℕ → Draws) (i : ℕ)
    (hi : i < (runSimulation cfg M ds).length) :
    EntryGhost ((runSimulation cfg M ds).get ⟨i, hi⟩).2 :=
  runYears_entries_ghost cfg ds M (initState cfg) (simYears cfg) (initState_ghost cfg)
    _ (List.get_mem _ _ _)

theorem claim_C4_witness :
    ∃ hi : 0 < (runSimulation cfgW MW (fun _ => dW)).length,
      EntryGhost ((runSimulation cfgW MW (fun _ => dW)).get ⟨0, hi⟩).2 := by
  have hk := runSimulation_keys cfgW MW (fun _ => dW) (by norm_num [cfgW])
    (by norm_num [cfgW, dW]) (by norm_num [cfgW])
  have hlen : (runSimulation cfgW MW (fun _ => dW)).length = 1 := by
    have h2 := congrArg List.length hk
    simpa [simYears, cfgW] using h2
  exact ⟨by omega, claim_C4 cfgW MW (fun _ => dW) 0 (by omega)⟩

/-- C5: after a full run from `start_year` to `end_year` (with a positive
initial GDP and a first-year growth factor above -100%, so that no year
aborts), the Result Ledger holds exactly one entry per year of
`[start_year, end_year]`, in strictly increasing year order, with no
duplicates and no entry for any other year; entries are only ever appended
by the year loop, never mutated, removed or reordered. -/
theorem claim_C5 (cfg : SimConfig) (M : Models) (ds : ℕ → Draws)
    (hgdp : 0 < cfg.initialGdp)
    (hA : 0 < 1 + cfg.baseRealGdpGrowth * (1 + (ds cfg.startYear).growthNoise))
    (hse : cfg.startYear ≤ cfg.endYear) :
    (runSimulation cfg M ds).map Prod.fst
        = List.range' cfg.startYear (cfg.endYear + 1 - cfg.startYear)
      ∧ (∀ y, y ∈ (runSimulation cfg M ds).map Prod.fst
          ↔ cfg.startYear ≤ y ∧ y ≤ cfg.endYear)
      ∧ ((runSimulation cfg M ds).map Prod.fst).Nodup
      ∧ List.Pairwise (· < ·) ((runSimulation cfg M ds).map Prod.fst) := by
  have hk := runSimulation_keys cfg M ds hgdp hA hse
  rw [simYears] at hk
  refine ⟨hk, ?_, ?_, ?_⟩
  · intro y
    rw [hk, List.mem_range'_1]
    omega
  · rw [hk]
    exact List.nodup_range' ..
  · rw [hk]
    exact List.pairwise_lt_range' ..

theorem claim_C5_witness :
    (0 : ℚ) < cfgW.initialGdp
      ∧ ((runSimulation cfgW MW (fun _ => dW)).map Prod.fst
          = List.range' cfgW.startYear (cfgW.endYear + 1 - cfgW.startYear)
        ∧ (∀ y, y ∈ (runSimulation cfgW MW (fun _ => dW)).map Prod.fst
            ↔ cfgW.startYear ≤ y ∧ y ≤ cfgW.endYear)
        ∧ ((runSimulation cfgW MW (fun _ => dW)).map Prod.fst).Nodup
        ∧ List.Pairwise (· < ·) ((runSimulation cfgW MW (fun _ => dW)).map Prod.fst)) :=
  ⟨by norm_num [cfgW],
   claim_C5 cfgW MW (fun _ => dW) (by norm_num [cfgW]) (by norm_num [cfgW, dW])
     (by norm_num [cfgW])⟩

/-- C6: the clamped ratios respect their documented bounds after every
sector update, in every year of every run: the NPL ratio is floored at
0.01, the capital-adequacy ratio is clamped to [0.05, 0.25], and the
policy-coordination score to [0.1, 0.9]. -/
theorem claim_C6 :
    (∀ (mf : FinancialSectorModel) (sf : StateD),
        0.01 ≤ (simulateFinancialSystem mf sf).2.nplRatio
        ∧ 0.05 ≤ (simulateFinancialSystem mf sf).2.capitalAdequacyRatio
        ∧ (simulateFinancialSystem mf sf).2.capitalAdequacyRatio ≤ 0.25)
      ∧ (∀ (mpc : PolicyCoordinationModel) (spc : StateD),
          0.1 ≤ (simulateCoordination mpc spc).1
          ∧ (simulateCoordination mpc spc).1 ≤ 0.9)
      ∧ ∀ (cfg : SimConfig) (M : Models) (s : StateD) (d : Draws) (t : YearTrace),
          runYear cfg M s d = some t →
            0.01 ≤ t.models.financialSectorModel.nplRatio
              ∧ 0.05 ≤ t.models.financialSectorModel.capitalAdequacyRatio
              ∧ t.models.financialSectorModel.capitalAdequacyRatio ≤ 0.25
              ∧ 0.1 ≤ t.coordScore ∧ t.coordScore ≤ 0.9 := by
  refine ⟨fun mf sf => ⟨le_max_left _ _, lo_le_clamp _ _ _, clamp_le_hi (by norm_num) _⟩,
    fun mpc spc => ⟨lo_le_clamp _ _ _, clamp_le_hi (by norm_num) _⟩, ?_⟩
  intro cfg M s d t h
  have f := runYear_facts cfg M s d t h
  obtain ⟨x, hx⟩ := f.npl_shape
  obtain ⟨y, hy⟩ := f.car_shape
  obtain ⟨z, hz⟩ := f.coord_shape
  rw [hx, hy, hz]
  exact ⟨le_max_left _ _, lo_le_clamp _ _ _, clamp_le_hi (by norm_num) _,
    lo_le_clamp _ _ _, clamp_le_hi (by norm_num) _⟩

theorem claim_C6_witness :
    (0.01 ≤ (simulateFinancialSystem MW.financialSectorModel []).2.nplRatio)
      ∧ ∃ t, runYear cfgW MA (initState cfgW) dW = some t
          ∧ (0.01 ≤ t.models.financialSectorModel.nplRatio
            ∧ 0.05 ≤ t.models.financialSectorModel.capitalAdequacyRatio
            ∧ t.models.financialSectorModel.capitalAdequacyRatio ≤ 0.25
            ∧ 0.1 ≤ t.coordScore ∧ t.coordScore ≤ 0.9) := by
  obtain ⟨t, ht⟩ := Option.isSome_iff_exists.mp (runYear_isSome cfgW MA (initState cfgW) dW
    (Or.inl rfl) (Or.inl rfl) (Or.inl rfl))
  exact ⟨(claim_C6.1 MW.financialSectorModel []).1, t, ht,
    claim_C6.2.2 cfgW MA (initState cfgW) dW t ht⟩

/-- C7 (amended): with the year's GDP forced to zero, no division by zero
occurs (every division site is guarded in the source) and the ledger's
GDP-denominated ratios `Revenue_GDP`, `Expenditure_GDP`,
`Overall_Deficit_GDP`, `Primary_Deficit_GDP`, `Debt_Stock_GDP` and
`SOE_Debt_GDP` are the missing marker — but the DSA debt-to-GDP ratio is
not: `_perform_dsa` substitutes 1 for the non-positive GDP, so
`DSA_Debt_GDP_Ratio` is reported as the raw debt-stock total (a number). -/
theorem claim_C7 (cfg : SimConfig) (M : Models) (s : StateD) (d : Draws) (t : YearTrace)
    (h : runYear cfg M s d = some t) (hg : econGdp s = 0) :
    t.entry.revenueGdp = none ∧ t.entry.expenditureGdp = none
      ∧ t.entry.overallDeficitGdp = none ∧ t.entry.primaryDeficitGdp = none
      ∧ t.entry.debtStockGdp = none ∧ t.entry.soeDebtGdp = none
      ∧ t.entry.dsaDebtGdpRatio = some t.models.debtModel.debtTotal := by
  have f := runYear_facts cfg M s d t h
  have hz : getNumD (getDictD t.state "economic_state") "gdp" 0 = 0 := by
    rw [getDictD_congr f.state_econ, updateEconomicState_gdp_read]
    exact updateEconomicState_gdp_zero cfg s d.growthNoise hg
  have hs := storeResults_gdp_zero t.state hz
  rw [f.entry_eq]
  exact ⟨hs.1, hs.2.1, hs.2.2.1, hs.2.2.2.1, hs.2.2.2.2.1, hs.2.2.2.2.2,
    by rw [← f.entry_eq]; exact runYear_dsa_gdp_zero cfg M s d t h hg⟩

/-- C7 (counterexample): in a year whose GDP is zero the claim demands the
`DSA_Debt_GDP_Ratio` ledger field be the missing marker, but the code
stores a number there. -/
theorem claim_C7_counterexample :
    ∃ t, runYear cfgZ MA (initState cfgZ) dW = some t
      ∧ t.entry.dsaDebtGdpRatio ≠ none := by
  obtain ⟨t, ht⟩ := Option.isSome_iff_exists.mp (runYear_isSome cfgZ MA (initState cfgZ) dW
    (Or.inl rfl) (Or.inl rfl) (Or.inl rfl))
  refine ⟨t, ht, ?_⟩
  rw [runYear_dsa_gdp_zero cfgZ MA (initState cfgZ) dW t ht
    (by rw [econGdp_initState]; norm_num [cfgZ])]
  exact Option.some_ne_none _

theorem claim_C7_witness :
    ∃ t, runYear cfgZ MA (initState cfgZ) dW = some t
      ∧ (t.entry.revenueGdp = none ∧ t.entry.expenditureGdp = none
        ∧ t.entry.overallDeficitGdp = none ∧ t.entry.primaryDeficitGdp = none
        ∧ t.entry.debtStockGdp = none ∧ t.entry.soeDebtGdp = none
        ∧ t.entry.dsaDebtGdpRatio = some t.models.debtModel.debtTotal) := by
  obtain ⟨t, ht⟩ := Option.isSome_iff_exists.mp (runYear_isSome cfgZ MA (initState cfgZ) dW
    (Or.inl rfl) (Or.inl rfl) (Or.inl rfl))
  exact ⟨t, ht, claim_C7 cfgZ MA (initState cfgZ) dW t ht
    (by rw [econGdp_initState]; norm_num [cfgZ])⟩

/-- C8: with the random streams made an explicit injectable input (one
draw triple per year feeding the growth perturbation, the external
sector's global factor and development finance's global aid factor), the
simulation is a pure function of configuration, models and stream: two
runs over the same year range with equal streams produce identical Result
Ledgers, entry by entry and field by field. -/
theorem claim_C8 (cfg : SimConfig) (M : Models) (ds1 ds2 : ℕ → Draws)
    (h : ∀ y, ds1 y = ds2 y) : runSimulation cfg M ds1 = runSimulation cfg M ds2 := by
  have he : ds1 = ds2 := funext h
  rw [he]

theorem claim_C8_witness :
    runSimulation cfgW MW (fun _ => dW) = runSimulation cfgW MW (fun _ => dW) :=
  claim_C8 cfgW MW (fun _ => dW) (fun _ => dW) (fun _ => rfl)

/-- C9: while the external-sector model is uninitialized and GDP is absent
or non-positive in the shared state, `simulate_external_sector` returns
its degenerate empty/zero result without touching the model (no stock
initialization, still Uninitialized); on the first call with a positive
GDP it initializes its flows and reserves from that GDP and becomes
Active; once Active it never consults the initializer again and stays
Active, so the Uninitialized-to-Active transition happens exactly once. -/
theorem claim_C9 (m : ExternalSectorModel) (s : StateD) (gf : ℚ) :
    (m.initialized = false → econGdp s ≤ 0 → simulateExternalSector m s gf = (none, m))
      ∧ (m.initialized = false → 0 < econGdp s →
          simulateExternalSector m s gf
              = externalBody (externalInitializeState m (econGdp s)) s gf
            ∧ (simulateExternalSector m s gf).2.initialized = true)
      ∧ (m.initialized = true →
          simulateExternalSector m s gf = externalBody m s gf
            ∧ (simulateExternalSector m s gf).2.initialized = true) := by
  refine ⟨?_, ?_, ?_⟩
  · intro h0 hle
    have hle' : ¬ (0 < getNumD (getDictD s "economic_state") "gdp" 0) := not_lt.mpr hle
    rw [simulateExternalSector, if_neg (by rw [h0]; simp)]
    dsimp only []
    rw [if_neg hle']
  · intro h0 hpos
    have hpos' : 0 < getNumD (getDictD s "economic_state") "gdp" 0 := hpos
    have he : simulateExternalSector m s gf
        = externalBody (externalInitializeState m (econGdp s)) s gf := by
      rw [simulateExternalSector, if_neg (by rw [h0]; simp)]
      dsimp only []
      rw [if_pos hpos']
      rfl
    refine ⟨he, ?_⟩
    rw [he]
    obtain ⟨m', hb, hi, -⟩ := externalBody_shape (externalInitializeState m (econGdp s)) s gf
    rw [hb]
    exact hi.trans rfl
  · intro h1
    have he : simulateExternalSector m s gf = externalBody m s gf := by
      rw [simulateExternalSector, if_pos h1]
    refine ⟨he, ?_⟩
    rw [he]
    obtain ⟨m', hb, hi, -⟩ := externalBody_shape m s gf
    rw [hb]
    exact hi.trans h1

theorem claim_C9_witness :
    (MW.externalSectorModel.initialized = false ∧ econGdp ([] : StateD) ≤ 0
      ∧ simulateExternalSector MW.externalSectorModel [] 1 = (none, MW.externalSectorModel))
      ∧ (0 < econGdp [("economic_state", Val.dict [("gdp", Val.num 5)])]
        ∧ (simulateExternalSector MW.externalSectorModel
            [("economic_state", Val.dict [("gdp", Val.num 5)])] 1).2.initialized = true)
      ∧ (simulateExternalSector MA.externalSectorModel [] 1).2.initialized = true := by
  have h5 : (0 : ℚ) < econGdp [("economic_state", Val.dict [("gdp", Val.num 5)])] := by
    norm_num [econGdp, getDictD, getNumD, lookupD]
  refine ⟨⟨rfl, le_of_eq rfl, (claim_C9 MW.externalSectorModel [] 1).1 rfl (le_of_eq rfl)⟩,
    ⟨h5, ((claim_C9 MW.externalSectorModel
      [("economic_state", Val.dict [("gdp", Val.num 5)])] 1).2.1 rfl h5).2⟩,
    ((claim_C9 MA.externalSectorModel [] 1).2.2 rfl).2⟩

/-- C10: in a year run with a zero prior central-government debt stock
(the scenario configuration has `initial_gdp = 1000`, zero debt, zero NPL
ratio, `start_year = end_year = 2025`), the Debt model's interest and
principal are zero and its returned stock satisfies
`debt_stock.total = new_borrowing`, the deficit passed in; that deficit is
exactly `total_expenditure - total_revenue` from the year's Revenue,
Expenditure and SOE outputs. -/
theorem claim_C10 (cfg : SimConfig) (M : Models) (s : StateD) (d : Draws) (t : YearTrace)
    (h : runYear cfg M s d = some t)
    (h1 : M.debtModel.debtDomestic = 0) (h2 : M.debtModel.debtExternal = 0)
    (h3 : M.debtModel.debtTotal = 0) :
    t.models.debtModel.debtTotal = t.deficit
      ∧ getNumOpt t.debtStockOut "total" = some t.deficit
      ∧ getNumD t.debtServiceCalculated "total_interest" 0 = 0
      ∧ getNumD t.debtServiceCalculated "total_principal" 0 = 0
      ∧ t.deficit = t.totalExpenditureIncSoe - t.totalRevenueIncSoe := by
  have f := runYear_facts cfg M s d t h
  have hz := updateDebtStock_zero_total M.debtModel t.deficit h1 h2 h3
  have htot : t.models.debtModel.debtTotal = t.deficit := by
    rw [f.debtModel_eq]
    exact hz.1
  refine ⟨htot, ?_, ?_, ?_, f.deficit_eq⟩
  · rw [f.debtStockOut_eq]
    rw [show getNumOpt (debtStockDict t.models.debtModel) "total"
      = some t.models.debtModel.debtTotal from rfl, htot]
  · rw [f.service_eq]
    exact hz.2.1
  · rw [f.service_eq]
    exact hz.2.2

theorem claim_C10_witness :
    ∃ t, runYear cfgW MW (initState cfgW) dW = some t
      ∧ (t.models.debtModel.debtTotal = t.deficit
        ∧ getNumOpt t.debtStockOut "total" = some t.deficit
        ∧ getNumD t.debtServiceCalculated "total_interest" 0 = 0
        ∧ getNumD t.debtServiceCalculated "total_principal" 0 = 0
        ∧ t.deficit = t.totalExpenditureIncSoe - t.totalRevenueIncSoe) := by
  have hpos : 0 < econGdp (updateEconomicState cfgW (initState cfgW) dW.growthNoise) :=
    updateEconomicState_gdp_pos _ _ _ (by rw [econGdp_initState]; norm_num [cfgW])
      (by norm_num [cfgW, dW])
  obtain ⟨t, ht⟩ := Option.isSome_iff_exists.mp (runYear_isSome cfgW MW (initState cfgW) dW
    (Or.inr hpos) (Or.inr hpos) (Or.inr hpos))
  exact ⟨t, ht, claim_C10 cfgW MW (initState cfgW) dW t ht rfl rfl rfl⟩

end BDPF
